import Mathlib

set_option maxRecDepth 8192

namespace Trent

/-- JSON values, as the serde_json data model restricted to what the
YGOProDeck payloads use: integer numbers, strings, arrays, objects. -/
inductive Json where
  | null : Json
  | bool (b : Bool) : Json
  | num (n : Int) : Json
  | str (s : String) : Json
  | arr (elems : List Json) : Json
  | obj (fields : List (String × Json)) : Json

/-- Look up the first binding of a key in a JSON object's field list. -/
def lookupField : List (String × Json) → String → Option Json
  | [], _ => none
  | (k, v) :: rest, key => if k = key then some v else lookupField rest key

/-- Read a field of a JSON object; `none` on non-objects or absent keys. -/
def Json.getField : Json → String → Option Json
  | .obj fields, key => lookupField fields key
  | _, _ => none

/-- Unique identifier for a card (`CardId(pub u64)` in `card.rs`). -/
structure CardId where
  val : Nat
deriving DecidableEq

/-- All supported monster races, from `card.rs`. -/
inductive MonsterRace where
  | Aqua | Beast | BeastWarrior | CreatorGod | Cyberse | Dinosaur
  | DivineBeast | Dragon | Fairy | Fiend | Fish | Illusion | Insect
  | Machine | Plant | Psychic | Pyro | Reptile | Rock | SeaSerpent
  | Spellcaster | Thunder | Warrior | WingedBeast | Wyrm | Zombie
deriving DecidableEq

/-- Spell card subtypes, from `card.rs`. -/
inductive SpellRace where
  | Normal | Field | Equip | Continuous | QuickPlay | Ritual
deriving DecidableEq

/-- Trap card subtypes, from `card.rs`. -/
inductive TrapRace where
  | Normal | Continuous | Counter
deriving DecidableEq

/-- All monster type variants (the `type` key of a monster record), from `card.rs`. -/
inductive MonsterType where
  | EffectMonster | FlipEffectMonster | FlipTunerEffectMonster | GeminiMonster
  | NormalMonster | NormalTunerMonster | PendulumEffectMonster
  | PendulumEffectRitualMonster | PendulumFlipEffectMonster
  | PendulumNormalMonster | PendulumTunerEffectMonster | RitualEffectMonster
  | RitualMonster | SpiritMonster | ToonMonster | TunerMonster
  | UnionEffectMonster | FusionMonster | LinkMonster
  | PendulumEffectFusionMonster | SynchroMonster | SynchroPendulumEffectMonster
  | SynchroTunerMonster | XYZMonster | XYZPendulumEffectMonster | Token
deriving DecidableEq

/-- Card attributes (LIGHT, DARK, FIRE, ...), from `card.rs`. -/
inductive Attribute where
  | Light | Dark | Water | Fire | Earth | Wind | Divine
deriving DecidableEq

/-- Direction of a Link Monster's markers, from `card.rs`. -/
inductive LinkMarker where
  | Top | TopLeft | TopRight | Left | Right | Bottom | BottomLeft | BottomRight
deriving DecidableEq

/-- Wire spelling of a `MonsterRace`, per its serde rename table in `card.rs`. -/
def MonsterRace.serdeName : MonsterRace → String
  | .Aqua => "Aqua"
  | .Beast => "Beast"
  | .BeastWarrior => "Beast-Warrior"
  | .CreatorGod => "Creator-God"
  | .Cyberse => "Cyberse"
  | .Dinosaur => "Dinosaur"
  | .DivineBeast => "Divine-Beast"
  | .Dragon => "Dragon"
  | .Fairy => "Fairy"
  | .Fiend => "Fiend"
  | .Fish => "Fish"
  | .Illusion => "Illusion"
  | .Insect => "Insect"
  | .Machine => "Machine"
  | .Plant => "Plant"
  | .Psychic => "Psychic"
  | .Pyro => "Pyro"
  | .Reptile => "Reptile"
  | .Rock => "Rock"
  | .SeaSerpent => "Sea Serpent"
  | .Spellcaster => "Spellcaster"
  | .Thunder => "Thunder"
  | .Warrior => "Warrior"
  | .WingedBeast => "Winged Beast"
  | .Wyrm => "Wyrm"
  | .Zombie => "Zombie"

/-- Rendering of a `MonsterRace` by its `Display` impl in `card.rs`. -/
def MonsterRace.display : MonsterRace → String
  | .Aqua => "Aqua"
  | .Beast => "Beast"
  | .BeastWarrior => "Beast-Warrior"
  | .CreatorGod => "Creator-God"
  | .Cyberse => "Cyberse"
  | .Dinosaur => "Dinosaur"
  | .DivineBeast => "Divine-Beast"
  | .Dragon => "Dragon"
  | .Fairy => "Fairy"
  | .Fiend => "Fiend"
  | .Fish => "Fish"
  | .Illusion => "Illusion"
  | .Insect => "Insect"
  | .Machine => "Machine"
  | .Plant => "Plant"
  | .Psychic => "Psychic"
  | .Pyro => "Pyro"
  | .Reptile => "Reptile"
  | .Rock => "Rock"
  | .SeaSerpent => "Sea Serpent"
  | .Spellcaster => "Spellcaster"
  | .Thunder => "Thunder"
  | .Warrior => "Warrior"
  | .WingedBeast => "Winged Beast"
  | .Wyrm => "Wyrm"
  | .Zombie => "Zombie"

/-- Internal (Rust identifier) name of a `MonsterRace` constructor. -/
def MonsterRace.internalName : MonsterRace → String
  | .Aqua => "Aqua"
  | .Beast => "Beast"
  | .BeastWarrior => "BeastWarrior"
  | .CreatorGod => "CreatorGod"
  | .Cyberse => "Cyberse"
  | .Dinosaur => "Dinosaur"
  | .DivineBeast => "DivineBeast"
  | .Dragon => "Dragon"
  | .Fairy => "Fairy"
  | .Fiend => "Fiend"
  | .Fish => "Fish"
  | .Illusion => "Illusion"
  | .Insect => "Insect"
  | .Machine => "Machine"
  | .Plant => "Plant"
  | .Psychic => "Psychic"
  | .Pyro => "Pyro"
  | .Reptile => "Reptile"
  | .Rock => "Rock"
  | .SeaSerpent => "SeaSerpent"
  | .Spellcaster => "Spellcaster"
  | .Thunder => "Thunder"
  | .Warrior => "Warrior"
  | .WingedBeast => "WingedBeast"
  | .Wyrm => "Wyrm"
  | .Zombie => "Zombie"

/-- Decode a wire spelling into a `MonsterRace` (serde deserialization table). -/
def MonsterRace.ofWire : String → Option MonsterRace
  | "Aqua" => some .Aqua
  | "Beast" => some .Beast
  | "Beast-Warrior" => some .BeastWarrior
  | "Creator-God" => some .CreatorGod
  | "Cyberse" => some .Cyberse
  | "Dinosaur" => some .Dinosaur
  | "Divine-Beast" => some .DivineBeast
  | "Dragon" => some .Dragon
  | "Fairy" => some .Fairy
  | "Fiend" => some .Fiend
  | "Fish" => some .Fish
  | "Illusion" => some .Illusion
  | "Insect" => some .Insect
  | "Machine" => some .Machine
  | "Plant" => some .Plant
  | "Psychic" => some .Psychic
  | "Pyro" => some .Pyro
  | "Reptile" => some .Reptile
  | "Rock" => some .Rock
  | "Sea Serpent" => some .SeaSerpent
  | "Spellcaster" => some .Spellcaster
  | "Thunder" => some .Thunder
  | "Warrior" => some .Warrior
  | "Winged Beast" => some .WingedBeast
  | "Wyrm" => some .Wyrm
  | "Zombie" => some .Zombie
  | _ => none

/-- Wire spelling of an `Attribute` (serde `rename_all = "UPPERCASE"`). -/
def Attribute.serdeName : Attribute → String
  | .Light => "LIGHT"
  | .Dark => "DARK"
  | .Water => "WATER"
  | .Fire => "FIRE"
  | .Earth => "EARTH"
  | .Wind => "WIND"
  | .Divine => "DIVINE"

/-- Rendering of an `Attribute` by its `Display` impl in `card.rs`. -/
def Attribute.display : Attribute → String
  | .Light => "LIGHT"
  | .Dark => "DARK"
  | .Water => "WATER"
  | .Fire => "FIRE"
  | .Earth => "EARTH"
  | .Wind => "WIND"
  | .Divine => "DIVINE"

/-- Internal (Rust identifier) name of an `Attribute` constructor. -/
def Attribute.internalName : Attribute → String
  | .Light => "Light"
  | .Dark => "Dark"
  | .Water => "Water"
  | .Fire => "Fire"
  | .Earth => "Earth"
  | .Wind => "Wind"
  | .Divine => "Divine"

/-- Decode a wire spelling into an `Attribute`. -/
def Attribute.ofWire : String → Option Attribute
  | "LIGHT" => some .Light
  | "DARK" => some .Dark
  | "WATER" => some .Water
  | "FIRE" => some .Fire
  | "EARTH" => some .Earth
  | "WIND" => some .Wind
  | "DIVINE" => some .Divine
  | _ => none

/-- Wire spelling of a `LinkMarker`, per its serde rename table in `card.rs`. -/
def LinkMarker.serdeName : LinkMarker → String
  | .Top => "Top"
  | .TopLeft => "Top-Left"
  | .TopRight => "Top-Right"
  | .Left => "Left"
  | .Right => "Right"
  | .Bottom => "Bottom"
  | .BottomLeft => "Bottom-Left"
  | .BottomRight => "Bottom-Right"

/-- Rendering of a `LinkMarker` by its `Display` impl in `card.rs`. -/
def LinkMarker.display : LinkMarker → String
  | .Top => "Top"
  | .TopLeft => "Top-Left"
  | .TopRight => "Top-Right"
  | .Left => "Left"
  | .Right => "Right"
  | .Bottom => "Bottom"
  | .BottomLeft => "Bottom-Left"
  | .BottomRight => "Bottom-Right"

/-- Internal (Rust identifier) name of a `LinkMarker` constructor. -/
def LinkMarker.internalName : LinkMarker → String
  | .Top => "Top"
  | .TopLeft => "TopLeft"
  | .TopRight => "TopRight"
  | .Left => "Left"
  | .Right => "Right"
  | .Bottom => "Bottom"
  | .BottomLeft => "BottomLeft"
  | .BottomRight => "BottomRight"

/-- Decode a wire spelling into a `LinkMarker`. -/
def LinkMarker.ofWire : String → Option LinkMarker
  | "Top" => some .Top
  | "Top-Left" => some .TopLeft
  | "Top-Right" => some .TopRight
  | "Left" => some .Left
  | "Right" => some .Right
  | "Bottom" => some .Bottom
  | "Bottom-Left" => some .BottomLeft
  | "Bottom-Right" => some .BottomRight
  | _ => none

/-- Wire spelling of a `MonsterType`, per its serde rename table in `card.rs`. -/
def MonsterType.serdeName : MonsterType → String
  | .EffectMonster => "Effect Monster"
  | .FlipEffectMonster => "Flip Effect Monster"
  | .FlipTunerEffectMonster => "Flip Tuner Effect Monster"
  | .GeminiMonster => "Gemini Monster"
  | .NormalMonster => "Normal Monster"
  | .NormalTunerMonster => "Normal Tuner Monster"
  | .PendulumEffectMonster => "Pendulum Effect Monster"
  | .PendulumEffectRitualMonster => "Pendulum Effect Ritual Monster"
  | .PendulumFlipEffectMonster => "Pendulum Flip Effect Monster"
  | .PendulumNormalMonster => "Pendulum Normal Monster"
  | .PendulumTunerEffectMonster => "Pendulum Tuner Effect Monster"
  | .RitualEffectMonster => "Ritual Effect Monster"
  | .RitualMonster => "Ritual Monster"
  | .SpiritMonster => "Spirit Monster"
  | .ToonMonster => "Toon Monster"
  | .TunerMonster => "Tuner Monster"
  | .UnionEffectMonster => "Union Effect Monster"
  | .FusionMonster => "Fusion Monster"
  | .LinkMonster => "Link Monster"
  | .PendulumEffectFusionMonster => "Pendulum Effect Fusion Monster"
  | .SynchroMonster => "Synchro Monster"
  | .SynchroPendulumEffectMonster => "Synchro Pendulum Effect Monster"
  | .SynchroTunerMonster => "Synchro Tuner Monster"
  | .XYZMonster => "XYZ Monster"
  | .XYZPendulumEffectMonster => "XYZ Pendulum Effect Monster"
  | .Token => "Token"

/-- Decode a wire spelling into a `MonsterType`. -/
def MonsterType.ofWire : String → Option MonsterType
  | "Effect Monster" => some .EffectMonster
  | "Flip Effect Monster" => some .FlipEffectMonster
  | "Flip Tuner Effect Monster" => some .FlipTunerEffectMonster
  | "Gemini Monster" => some .GeminiMonster
  | "Normal Monster" => some .NormalMonster
  | "Normal Tuner Monster" => some .NormalTunerMonster
  | "Pendulum Effect Monster" => some .PendulumEffectMonster
  | "Pendulum Effect Ritual Monster" => some .PendulumEffectRitualMonster
  | "Pendulum Flip Effect Monster" => some .PendulumFlipEffectMonster
  | "Pendulum Normal Monster" => some .PendulumNormalMonster
  | "Pendulum Tuner Effect Monster" => some .PendulumTunerEffectMonster
  | "Ritual Effect Monster" => some .RitualEffectMonster
  | "Ritual Monster" => some .RitualMonster
  | "Spirit Monster" => some .SpiritMonster
  | "Toon Monster" => some .ToonMonster
  | "Tuner Monster" => some .TunerMonster
  | "Union Effect Monster" => some .UnionEffectMonster
  | "Fusion Monster" => some .FusionMonster
  | "Link Monster" => some .LinkMonster
  | "Pendulum Effect Fusion Monster" => some .PendulumEffectFusionMonster
  | "Synchro Monster" => some .SynchroMonster
  | "Synchro Pendulum Effect Monster" => some .SynchroPendulumEffectMonster
  | "Synchro Tuner Monster" => some .SynchroTunerMonster
  | "XYZ Monster" => some .XYZMonster
  | "XYZ Pendulum Effect Monster" => some .XYZPendulumEffectMonster
  | "Token" => some .Token
  | _ => none

/-- Wire spelling of a `SpellRace`, per its serde rename table in `card.rs`. -/
def SpellRace.serdeName : SpellRace → String
  | .Normal => "Normal"
  | .Field => "Field"
  | .Equip => "Equip"
  | .Continuous => "Continuous"
  | .QuickPlay => "Quick-Play"
  | .Ritual => "Ritual"

/-- Decode a wire spelling into a `SpellRace`. -/
def SpellRace.ofWire : String → Option SpellRace
  | "Normal" => some .Normal
  | "Field" => some .Field
  | "Equip" => some .Equip
  | "Continuous" => some .Continuous
  | "Quick-Play" => some .QuickPlay
  | "Ritual" => some .Ritual
  | _ => none

/-- Wire spelling of a `TrapRace`. -/
def TrapRace.serdeName : TrapRace → String
  | .Normal => "Normal"
  | .Continuous => "Continuous"
  | .Counter => "Counter"

/-- Decode a wire spelling into a `TrapRace`. -/
def TrapRace.ofWire : String → Option TrapRace
  | "Normal" => some .Normal
  | "Continuous" => some .Continuous
  | "Counter" => some .Counter
  | _ => none

/-- Represents a set (printing) the card belongs to, from `card.rs`. -/
structure CardSet where
  name : String
  code : String
  rarity : String
  rarity_code : String
  price : String
deriving DecidableEq

/-- Image URLs for a card in various resolutions, from `card.rs`. -/
structure CardImage where
  id : Nat
  url : String
  url_small : String
  url_cropped : String
deriving DecidableEq

/-- Market price information for a card across multiple vendors, from `card.rs`. -/
structure CardPrices where
  cardmarket : String
  tcgplayer : String
  ebay : String
  amazon : String
  coolstuffinc : String
deriving DecidableEq

/-- Shared metadata for all cards, flattened into each card struct. -/
structure CardInfo where
  id : CardId
  name : String
  desc : String
  human_readable_card_type : String
  ygoprodeck_url : String
  sets : List CardSet
  images : List CardImage
  prices : List CardPrices
deriving DecidableEq

/-- Represents a Normal Monster card. The `def` field of the Rust struct is
spelled `def_` here because `def` is reserved in Lean. -/
structure NormalMonster where
  info : CardInfo
  race : MonsterRace
  «attribute» : Attribute
  level : Nat
  atk : Int
  def_ : Int
  card_type : MonsterType
deriving DecidableEq

/-- Represents an Effect Monster card. -/
structure EffectMonster where
  info : CardInfo
  race : MonsterRace
  «attribute» : Attribute
  atk : Int
  def_ : Int
  level : Nat
  card_type : MonsterType
deriving DecidableEq

/-- Represents a Ritual Monster card. -/
structure RitualMonster where
  info : CardInfo
  race : MonsterRace
  «attribute» : Attribute
  atk : Int
  def_ : Int
  level : Nat
  card_type : MonsterType
deriving DecidableEq

/-- Represents a Fusion Monster card. -/
structure FusionMonster where
  info : CardInfo
  race : MonsterRace
  «attribute» : Attribute
  atk : Int
  def_ : Int
  level : Nat
  card_type : MonsterType
deriving DecidableEq

/-- Represents a Synchro Monster card. -/
structure SynchroMonster where
  info : CardInfo
  race : MonsterRace
  «attribute» : Attribute
  atk : Int
  def_ : Int
  level : Nat
  card_type : MonsterType
deriving DecidableEq

/-- Represents an XYZ Monster card; `rank` corresponds to the `level` key. -/
structure XyzMonster where
  info : CardInfo
  race : MonsterRace
  «attribute» : Attribute
  atk : Int
  def_ : Int
  rank : Nat
  card_type : MonsterType
deriving DecidableEq

/-- Represents a Pendulum Monster card. -/
structure PendulumMonster where
  info : CardInfo
  race : MonsterRace
  «attribute» : Attribute
  atk : Int
  def_ : Int
  level : Nat
  card_type : MonsterType
  scale : Nat
deriving DecidableEq

/-- Represents a Link Monster card; `link_markers` comes from `linkmarkers`. -/
structure LinkMonster where
  info : CardInfo
  race : MonsterRace
  «attribute» : Attribute
  atk : Int
  linkval : Nat
  card_type : MonsterType
  link_markers : List LinkMarker
deriving DecidableEq

/-- Represents a Spell Card. -/
structure SpellCard where
  info : CardInfo
  race : SpellRace
deriving DecidableEq

/-- Represents a Trap Card. -/
structure TrapCard where
  info : CardInfo
  race : TrapRace
deriving DecidableEq

/-- Any card: the enum tagged by the `frameType` field, from `card.rs`. -/
inductive Card where
  | Normal (m : NormalMonster)
  | Effect (m : EffectMonster)
  | Ritual (m : RitualMonster)
  | Fusion (m : FusionMonster)
  | Synchro (m : SynchroMonster)
  | Xyz (m : XyzMonster)
  | Link (m : LinkMonster)
  | Spell (c : SpellCard)
  | Trap (c : TrapCard)
  | Skill
  | Token
  | Pendulum (m : PendulumMonster)
deriving DecidableEq

/-- Decode-failure taxonomy of the card decoder. -/
inductive DecodeError where
  | unknownCardCategory (tag : String)
  | missingField (field variant : String)
  | typeMismatch (field : String)
deriving DecidableEq

instance {ε α : Type} [DecidableEq ε] [DecidableEq α] :
    DecidableEq (Except ε α) := fun a b => by
  cases a <;> cases b <;>
    first
      | (apply isFalse; intro h; exact Except.noConfusion h)
      | (rename_i x y
         exact if h : x = y then isTrue (by rw [h]) else
           isFalse (fun hc => h (by injection hc)))

/-- Read a required string field. -/
def getStr (j : Json) (key variant : String) : Except DecodeError String :=
  match j.getField key with
  | none => .error (.missingField key variant)
  | some (.str s) => .ok s
  | some _ => .error (.typeMismatch key)

/-- Read a required integer field, bounds-checked like the Rust integer type. -/
def getIntIn (j : Json) (key variant : String) (lo hi : Int) : Except DecodeError Int :=
  match j.getField key with
  | none => .error (.missingField key variant)
  | some (.num n) => if lo ≤ n ∧ n ≤ hi then .ok n else .error (.typeMismatch key)
  | some _ => .error (.typeMismatch key)

/-- Read a `u8` field. -/
def getU8 (j : Json) (key variant : String) : Except DecodeError Nat :=
  (getIntIn j key variant 0 255).map Int.toNat

/-- Read a `u64` field. -/
def getU64 (j : Json) (key variant : String) : Except DecodeError Nat :=
  (getIntIn j key variant 0 18446744073709551615).map Int.toNat

/-- Read an `i32` field. -/
def getI32 (j : Json) (key variant : String) : Except DecodeError Int :=
  getIntIn j key variant (-2147483648) 2147483647

/-- Read a required string-enumeration field through a wire-spelling table. -/
def getEnum {α : Type} (ofWire : String → Option α) (j : Json)
    (key variant : String) : Except DecodeError α :=
  match j.getField key with
  | none => .error (.missingField key variant)
  | some (.str s) =>
    match ofWire s with
    | some a => .ok a
    | none => .error (.typeMismatch key)
  | some _ => .error (.typeMismatch key)

/-- Decode every element of a JSON array. -/
def decodeList {α : Type} (d : Json → Except DecodeError α) :
    List Json → Except DecodeError (List α)
  | [] => .ok []
  | x :: xs => do
    let a ← d x
    let as ← decodeList d xs
    .ok (a :: as)

/-- Decode one card-set record. -/
def decodeCardSet (j : Json) : Except DecodeError CardSet := do
  let name ← getStr j "set_name" "CardSet"
  let code ← getStr j "set_code" "CardSet"
  let rarity ← getStr j "set_rarity" "CardSet"
  let rarity_code ← getStr j "set_rarity_code" "CardSet"
  let price ← getStr j "set_price" "CardSet"
  .ok { name, code, rarity, rarity_code, price }

/-- Decode one card-image record. -/
def decodeCardImage (j : Json) : Except DecodeError CardImage := do
  let id ← getU64 j "id" "CardImage"
  let url ← getStr j "image_url" "CardImage"
  let url_small ← getStr j "image_url_small" "CardImage"
  let url_cropped ← getStr j "image_url_cropped" "CardImage"
  .ok { id, url, url_small, url_cropped }

/-- Decode one vendor-prices record. -/
def decodeCardPrices (j : Json) : Except DecodeError CardPrices := do
  let cardmarket ← getStr j "cardmarket_price" "CardPrices"
  let tcgplayer ← getStr j "tcgplayer_price" "CardPrices"
  let ebay ← getStr j "ebay_price" "CardPrices"
  let amazon ← getStr j "amazon_price" "CardPrices"
  let coolstuffinc ← getStr j "coolstuffinc_price" "CardPrices"
  .ok { cardmarket, tcgplayer, ebay, amazon, coolstuffinc }

/-- Read the optional `card_sets` array; absent means the empty list. -/
def getSetsField (j : Json) : Except DecodeError (List CardSet) :=
  match j.getField "card_sets" with
  | none => .ok []
  | some (.arr xs) => decodeList decodeCardSet xs
  | some _ => .error (.typeMismatch "card_sets")

/-- Read the required `card_images` array. -/
def getImagesField (j : Json) : Except DecodeError (List CardImage) :=
  match j.getField "card_images" with
  | none => .error (.missingField "card_images" "CardInfo")
  | some (.arr xs) => decodeList decodeCardImage xs
  | some _ => .error (.typeMismatch "card_images")

/-- Read the optional `card_prices` array; absent means the empty list. -/
def getPricesField (j : Json) : Except DecodeError (List CardPrices) :=
  match j.getField "card_prices" with
  | none => .ok []
  | some (.arr xs) => decodeList decodeCardPrices xs
  | some _ => .error (.typeMismatch "card_prices")

/-- Decode the flattened shared metadata from the same top-level object;
`card_sets` and `card_prices` default to `[]` when absent. -/
def decodeCardInfo (j : Json) : Except DecodeError CardInfo := do
  let idv ← getU64 j "id" "CardInfo"
  let name ← getStr j "name" "CardInfo"
  let desc ← getStr j "desc" "CardInfo"
  let hr ← getStr j "humanReadableCardType" "CardInfo"
  let url ← getStr j "ygoprodeck_url" "CardInfo"
  let sets ← getSetsField j
  let images ← getImagesField j
  let prices ← getPricesField j
  .ok { id := ⟨idv⟩, name, desc, human_readable_card_type := hr,
        ygoprodeck_url := url, sets, images, prices }

/-- Decode a Normal Monster record from the flat card object. -/
def decodeNormalMonster (j : Json) : Except DecodeError NormalMonster := do
  let info ← decodeCardInfo j
  let race ← getEnum MonsterRace.ofWire j "race" "NormalMonster"
  let attr ← getEnum Attribute.ofWire j "attribute" "NormalMonster"
  let level ← getU8 j "level" "NormalMonster"
  let atk ← getI32 j "atk" "NormalMonster"
  let d ← getI32 j "def" "NormalMonster"
  let ct ← getEnum MonsterType.ofWire j "type" "NormalMonster"
  .ok { info, race, «attribute» := attr, level, atk, def_ := d, card_type := ct }

/-- Decode an Effect Monster record. -/
def decodeEffectMonster (j : Json) : Except DecodeError EffectMonster := do
  let info ← decodeCardInfo j
  let race ← getEnum MonsterRace.ofWire j "race" "EffectMonster"
  let attr ← getEnum Attribute.ofWire j "attribute" "EffectMonster"
  let atk ← getI32 j "atk" "EffectMonster"
  let d ← getI32 j "def" "EffectMonster"
  let level ← getU8 j "level" "EffectMonster"
  let ct ← getEnum MonsterType.ofWire j "type" "EffectMonster"
  .ok { info, race, «attribute» := attr, atk, def_ := d, level, card_type := ct }

/-- Decode a Ritual Monster record. -/
def decodeRitualMonster (j : Json) : Except DecodeError RitualMonster := do
  let info ← decodeCardInfo j
  let race ← getEnum MonsterRace.ofWire j "race" "RitualMonster"
  let attr ← getEnum Attribute.ofWire j "attribute" "RitualMonster"
  let atk ← getI32 j "atk" "RitualMonster"
  let d ← getI32 j "def" "RitualMonster"
  let level ← getU8 j "level" "RitualMonster"
  let ct ← getEnum MonsterType.ofWire j "type" "RitualMonster"
  .ok { info, race, «attribute» := attr, atk, def_ := d, level, card_type := ct }

/-- Decode a Fusion Monster record. -/
def decodeFusionMonster (j : Json) : Except DecodeError FusionMonster := do
  let info ← decodeCardInfo j
  let race ← getEnum MonsterRace.ofWire j "race" "FusionMonster"
  let attr ← getEnum Attribute.ofWire j "attribute" "FusionMonster"
  let atk ← getI32 j "atk" "FusionMonster"
  let d ← getI32 j "def" "FusionMonster"
  let level ← getU8 j "level" "FusionMonster"
  let ct ← getEnum MonsterType.ofWire j "type" "FusionMonster"
  .ok { info, race, «attribute» := attr, atk, def_ := d, level, card_type := ct }

/-- Decode a Synchro Monster record. -/
def decodeSynchroMonster (j : Json) : Except DecodeError SynchroMonster := do
  let info ← decodeCardInfo j
  let race ← getEnum MonsterRace.ofWire j "race" "SynchroMonster"
  let attr ← getEnum Attribute.ofWire j "attribute" "SynchroMonster"
  let atk ← getI32 j "atk" "SynchroMonster"
  let d ← getI32 j "def" "SynchroMonster"
  let level ← getU8 j "level" "SynchroMonster"
  let ct ← getEnum MonsterType.ofWire j "type" "SynchroMonster"
  .ok { info, race, «attribute» := attr, atk, def_ := d, level, card_type := ct }

/-- Decode an XYZ Monster record; the `rank` field reads the `level` key. -/
def decodeXyzMonster (j : Json) : Except DecodeError XyzMonster := do
  let info ← decodeCardInfo j
  let race ← getEnum MonsterRace.ofWire j "race" "XyzMonster"
  let attr ← getEnum Attribute.ofWire j "attribute" "XyzMonster"
  let atk ← getI32 j "atk" "XyzMonster"
  let d ← getI32 j "def" "XyzMonster"
  let rank ← getU8 j "level" "XyzMonster"
  let ct ← getEnum MonsterType.ofWire j "type" "XyzMonster"
  .ok { info, race, «attribute» := attr, atk, def_ := d, rank, card_type := ct }

/-- Decode a Pendulum Monster record. -/
def decodePendulumMonster (j : Json) : Except DecodeError PendulumMonster := do
  let info ← decodeCardInfo j
  let race ← getEnum MonsterRace.ofWire j "race" "PendulumMonster"
  let attr ← getEnum Attribute.ofWire j "attribute" "PendulumMonster"
  let atk ← getI32 j "atk" "PendulumMonster"
  let d ← getI32 j "def" "PendulumMonster"
  let level ← getU8 j "level" "PendulumMonster"
  let ct ← getEnum MonsterType.ofWire j "type" "PendulumMonster"
  let scale ← getU8 j "scale" "PendulumMonster"
  .ok { info, race, «attribute» := attr, atk, def_ := d, level,
        card_type := ct, scale }

/-- Decode one element of the `linkmarkers` array. -/
def decodeLinkMarkerJson (x : Json) : Except DecodeError LinkMarker :=
  match x with
  | .str s =>
    match LinkMarker.ofWire s with
    | some m => .ok m
    | none => .error (.typeMismatch "linkmarkers")
  | _ => .error (.typeMismatch "linkmarkers")

/-- Read the required `linkmarkers` array of a Link Monster record. -/
def getLinkMarkersField (j : Json) : Except DecodeError (List LinkMarker) :=
  match j.getField "linkmarkers" with
  | none => .error (.missingField "linkmarkers" "LinkMonster")
  | some (.arr xs) => decodeList decodeLinkMarkerJson xs
  | some _ => .error (.typeMismatch "linkmarkers")

/-- Decode a Link Monster record; `link_markers` reads the `linkmarkers` key. -/
def decodeLinkMonster (j : Json) : Except DecodeError LinkMonster := do
  let info ← decodeCardInfo j
  let race ← getEnum MonsterRace.ofWire j "race" "LinkMonster"
  let attr ← getEnum Attribute.ofWire j "attribute" "LinkMonster"
  let atk ← getI32 j "atk" "LinkMonster"
  let linkval ← getU8 j "linkval" "LinkMonster"
  let ct ← getEnum MonsterType.ofWire j "type" "LinkMonster"
  let markers ← getLinkMarkersField j
  .ok { info, race, «attribute» := attr, atk, linkval,
        card_type := ct, link_markers := markers }

/-- Decode a Spell Card record. -/
def decodeSpellCard (j : Json) : Except DecodeError SpellCard := do
  let info ← decodeCardInfo j
  let race ← getEnum SpellRace.ofWire j "race" "SpellCard"
  .ok { info, race }

/-- Decode a Trap Card record. -/
def decodeTrapCard (j : Json) : Except DecodeError TrapCard := do
  let info ← decodeCardInfo j
  let race ← getEnum TrapRace.ofWire j "race" "TrapCard"
  .ok { info, race }

/-- The six accepted pendulum discriminator strings (one rename + five aliases). -/
def pendulumFrameTypes : List String :=
  ["normal_pendulum", "effect_pendulum", "ritual_pendulum",
   "fusion_pendulum", "synchro_pendulum", "xyz_pendulum"]

/-- Every discriminator string accepted by the `Card` decoder. -/
def acceptedFrameTypes : List String :=
  ["normal", "effect", "ritual", "fusion", "synchro", "xyz", "link",
   "spell", "trap", "skill", "token"] ++ pendulumFrameTypes

/-- Decode one card object: read the `frameType` discriminator, dispatch on the
accepted spellings (six strings all select `Pendulum`), fail with
`unknownCardCategory` on anything else. -/
def decodeCard (j : Json) : Except DecodeError Card :=
  match j.getField "frameType" with
  | none => .error (.missingField "frameType" "Card")
  | some (.str tag) =>
    if tag = "normal" then (decodeNormalMonster j).map .Normal
    else if tag = "effect" then (decodeEffectMonster j).map .Effect
    else if tag = "ritual" then (decodeRitualMonster j).map .Ritual
    else if tag = "fusion" then (decodeFusionMonster j).map .Fusion
    else if tag = "synchro" then (decodeSynchroMonster j).map .Synchro
    else if tag = "xyz" then (decodeXyzMonster j).map .Xyz
    else if tag = "link" then (decodeLinkMonster j).map .Link
    else if tag = "spell" then (decodeSpellCard j).map .Spell
    else if tag = "trap" then (decodeTrapCard j).map .Trap
    else if tag = "skill" then .ok .Skill
    else if tag = "token" then .ok .Token
    else if tag = "normal_pendulum" ∨ tag = "effect_pendulum" ∨
            tag = "ritual_pendulum" ∨ tag = "fusion_pendulum" ∨
            tag = "synchro_pendulum" ∨ tag = "xyz_pendulum" then
      (decodePendulumMonster j).map .Pendulum
    else .error (.unknownCardCategory tag)
  | some _ => .error (.typeMismatch "frameType")

/-- Serialize a card-set record. -/
def serializeCardSet (s : CardSet) : Json :=
  .obj [("set_name", .str s.name), ("set_code", .str s.code),
        ("set_rarity", .str s.rarity), ("set_rarity_code", .str s.rarity_code),
        ("set_price", .str s.price)]

/-- Serialize a card-image record. -/
def serializeCardImage (i : CardImage) : Json :=
  .obj [("id", .num (i.id : Int)), ("image_url", .str i.url),
        ("image_url_small", .str i.url_small),
        ("image_url_cropped", .str i.url_cropped)]

/-- Serialize a vendor-prices record. -/
def serializeCardPrices (p : CardPrices) : Json :=
  .obj [("cardmarket_price", .str p.cardmarket),
        ("tcgplayer_price", .str p.tcgplayer), ("ebay_price", .str p.ebay),
        ("amazon_price", .str p.amazon),
        ("coolstuffinc_price", .str p.coolstuffinc)]

/-- Top-level key=value pairs of the flattened shared metadata. -/
def cardInfoFields (i : CardInfo) : List (String × Json) :=
  [("id", .num (i.id.val : Int)), ("name", .str i.name),
   ("desc", .str i.desc),
   ("humanReadableCardType", .str i.human_readable_card_type),
   ("ygoprodeck_url", .str i.ygoprodeck_url),
   ("card_sets", .arr (i.sets.map serializeCardSet)),
   ("card_images", .arr (i.images.map serializeCardImage)),
   ("card_prices", .arr (i.prices.map serializeCardPrices))]

/-- Serialize a card: the `frameType` tag first (using each variant's rename,
so `Pendulum` always emits `normal_pendulum`), then the flattened shared
metadata, then the variant-specific fields under their external key names. -/
def serializeCard : Card → Json
  | .Normal m =>
    .obj (("frameType", .str "normal") :: cardInfoFields m.info ++
      [("race", .str m.race.serdeName),
       ("attribute", .str m.«attribute».serdeName),
       ("level", .num (m.level : Int)), ("atk", .num m.atk),
       ("def", .num m.def_), ("type", .str m.card_type.serdeName)])
  | .Effect m =>
    .obj (("frameType", .str "effect") :: cardInfoFields m.info ++
      [("race", .str m.race.serdeName),
       ("attribute", .str m.«attribute».serdeName),
       ("atk", .num m.atk), ("def", .num m.def_),
       ("level", .num (m.level : Int)), ("type", .str m.card_type.serdeName)])
  | .Ritual m =>
    .obj (("frameType", .str "ritual") :: cardInfoFields m.info ++
      [("race", .str m.race.serdeName),
       ("attribute", .str m.«attribute».serdeName),
       ("atk", .num m.atk), ("def", .num m.def_),
       ("level", .num (m.level : Int)), ("type", .str m.card_type.serdeName)])
  | .Fusion m =>
    .obj (("frameType", .str "fusion") :: cardInfoFields m.info ++
      [("race", .str m.race.serdeName),
       ("attribute", .str m.«attribute».serdeName),
       ("atk", .num m.atk), ("def", .num m.def_),
       ("level", .num (m.level : Int)), ("type", .str m.card_type.serdeName)])
  | .Synchro m =>
    .obj (("frameType", .str "synchro") :: cardInfoFields m.info ++
      [("race", .str m.race.serdeName),
       ("attribute", .str m.«attribute».serdeName),
       ("atk", .num m.atk), ("def", .num m.def_),
       ("level", .num (m.level : Int)), ("type", .str m.card_type.serdeName)])
  | .Xyz m =>
    .obj (("frameType", .str "xyz") :: cardInfoFields m.info ++
      [("race", .str m.race.serdeName),
       ("attribute", .str m.«attribute».serdeName),
       ("atk", .num m.atk), ("def", .num m.def_),
       ("level", .num (m.rank : Int)), ("type", .str m.card_type.serdeName)])
  | .Link m =>
    .obj (("frameType", .str "link") :: cardInfoFields m.info ++
      [("race", .str m.race.serdeName),
       ("attribute", .str m.«attribute».serdeName),
       ("atk", .num m.atk), ("linkval", .num (m.linkval : Int)),
       ("type", .str m.card_type.serdeName),
       ("linkmarkers", .arr (m.link_markers.map (fun x => .str x.serdeName)))])
  | .Spell c =>
    .obj (("frameType", .str "spell") :: cardInfoFields c.info ++
      [("race", .str c.race.serdeName)])
  | .Trap c =>
    .obj (("frameType", .str "trap") :: cardInfoFields c.info ++
      [("race", .str c.race.serdeName)])
  | .Skill => .obj [("frameType", .str "skill")]
  | .Token => .obj [("frameType", .str "token")]
  | .Pendulum m =>
    .obj (("frameType", .str "normal_pendulum") :: cardInfoFields m.info ++
      [("race", .str m.race.serdeName),
       ("attribute", .str m.«attribute».serdeName),
       ("atk", .num m.atk), ("def", .num m.def_),
       ("level", .num (m.level : Int)), ("type", .str m.card_type.serdeName),
       ("scale", .num (m.scale : Int))])

/-- Largest `u64` value. -/
def u64Max : Nat := 18446744073709551615

/-- Constraint a value must satisfy to inhabit Rust's `i32`. -/
def i32Bounds (n : Int) : Prop := -2147483648 ≤ n ∧ n ≤ 2147483647

instance (n : Int) : Decidable (i32Bounds n) := by
  unfold i32Bounds; infer_instance

/-- A `CardInfo` whose numeric fields fit their Rust integer types. -/
def WFInfo (i : CardInfo) : Prop :=
  i.id.val ≤ u64Max ∧ ∀ img ∈ i.images, img.id ≤ u64Max

instance (i : CardInfo) : Decidable (WFInfo i) := by
  unfold WFInfo; infer_instance

/-- A `Card` value constructible in Rust: every numeric field fits its
declared machine-integer type. -/
def WFCard : Card → Prop
  | .Normal m => WFInfo m.info ∧ m.level ≤ 255 ∧ i32Bounds m.atk ∧ i32Bounds m.def_
  | .Effect m => WFInfo m.info ∧ m.level ≤ 255 ∧ i32Bounds m.atk ∧ i32Bounds m.def_
  | .Ritual m => WFInfo m.info ∧ m.level ≤ 255 ∧ i32Bounds m.atk ∧ i32Bounds m.def_
  | .Fusion m => WFInfo m.info ∧ m.level ≤ 255 ∧ i32Bounds m.atk ∧ i32Bounds m.def_
  | .Synchro m => WFInfo m.info ∧ m.level ≤ 255 ∧ i32Bounds m.atk ∧ i32Bounds m.def_
  | .Xyz m => WFInfo m.info ∧ m.rank ≤ 255 ∧ i32Bounds m.atk ∧ i32Bounds m.def_
  | .Link m => WFInfo m.info ∧ m.linkval ≤ 255 ∧ i32Bounds m.atk
  | .Spell c => WFInfo c.info
  | .Trap c => WFInfo c.info
  | .Skill => True
  | .Token => True
  | .Pendulum m =>
    WFInfo m.info ∧ m.level ≤ 255 ∧ m.scale ≤ 255 ∧
      i32Bounds m.atk ∧ i32Bounds m.def_

instance (c : Card) : Decidable (WFCard c) := by
  cases c <;> (unfold WFCard; infer_instance)

/-- UTF-8 byte sequence of one character. -/
def charUtf8 (c : Char) : List Nat :=
  let n := c.toNat
  if n < 128 then [n]
  else if n < 2048 then [192 + n / 64, 128 + n % 64]
  else if n < 65536 then [224 + n / 4096, 128 + (n / 64) % 64, 128 + n % 64]
  else [240 + n / 262144, 128 + (n / 4096) % 64, 128 + (n / 64) % 64,
        128 + n % 64]

/-- UTF-8 byte sequence of a string. -/
def utf8Encode (s : String) : List Nat := s.data.flatMap charUtf8

/-- Bytes the `urlencoding` crate leaves as-is: ASCII alphanumerics and
`-`, `.`, `_`, `~`. -/
def isUnreservedByte (b : Nat) : Bool :=
  (48 ≤ b && b ≤ 57) || (65 ≤ b && b ≤ 90) || (97 ≤ b && b ≤ 122) ||
    b = 45 || b = 46 || b = 95 || b = 126

/-- Uppercase hexadecimal digit. -/
def hexDigit (n : Nat) : Char :=
  if n < 10 then Char.ofNat (48 + n) else Char.ofNat (55 + n)

/-- Percent-encode a byte sequence, keeping unreserved bytes verbatim. -/
def encodeBytes : List Nat → List Char
  | [] => []
  | b :: bs =>
    (if isUnreservedByte b then [Char.ofNat b]
     else ['%', hexDigit (b / 16), hexDigit (b % 16)]) ++ encodeBytes bs

/-- URL-component percent-encoding as performed by `urlencoding::encode`. -/
def urlencode (s : String) : String := String.mk (encodeBytes (utf8Encode s))

/-- Value of one hexadecimal digit character. -/
def hexVal (c : Char) : Nat :=
  if 48 ≤ c.toNat ∧ c.toNat ≤ 57 then c.toNat - 48
  else if 65 ≤ c.toNat ∧ c.toNat ≤ 70 then c.toNat - 55
  else if 97 ≤ c.toNat ∧ c.toNat ≤ 102 then c.toNat - 87
  else 0

/-- Percent-decode a character sequence back into its byte sequence. -/
def percentDecodeBytes : List Char → List Nat
  | '%' :: a :: b :: rest => (hexVal a * 16 + hexVal b) :: percentDecodeBytes rest
  | c :: rest => c.toNat :: percentDecodeBytes rest
  | [] => []

/-- The card-category filter of a search request, from `request.rs`.
Distinct from `MonsterType`: it adds `Spell`, `Trap` and `Skill`. -/
inductive CardType where
  | EffectMonster | FlipEffectMonster | FlipTunerEffectMonster | GeminiMonster
  | NormalMonster | NormalTunerMonster | PendulumEffectMonster
  | PendulumEffectRitualMonster | PendulumFlipEffectMonster
  | PendulumNormalMonster | PendulumTunerEffectMonster | RitualEffectMonster
  | RitualMonster | SpiritMonster | ToonMonster | TunerMonster
  | UnionEffectMonster | FusionMonster | LinkMonster
  | PendulumEffectFusionMonster | SynchroMonster | SynchroPendulumEffectMonster
  | SynchroTunerMonster | XYZMonster | XYZPendulumEffectMonster | Token
  | Spell | Trap | Skill
deriving DecidableEq

/-- Serde-serialized external name of a `CardType`, per the rename table in
`request.rs`; note the `Skill` entry is spelled `Skil Card` there. -/
def CardType.serdeName : CardType → String
  | .EffectMonster => "Effect Monster"
  | .FlipEffectMonster => "Flip Effect Monster"
  | .FlipTunerEffectMonster => "Flip Tuner Effect Monster"
  | .GeminiMonster => "Gemini Monster"
  | .NormalMonster => "Normal Monster"
  | .NormalTunerMonster => "Normal Tuner Monster"
  | .PendulumEffectMonster => "Pendulum Effect Monster"
  | .PendulumEffectRitualMonster => "Pendulum Effect Ritual Monster"
  | .PendulumFlipEffectMonster => "Pendulum Flip Effect Monster"
  | .PendulumNormalMonster => "Pendulum Normal Monster"
  | .PendulumTunerEffectMonster => "Pendulum Tuner Effect Monster"
  | .RitualEffectMonster => "Ritual Effect Monster"
  | .RitualMonster => "Ritual Monster"
  | .SpiritMonster => "Spirit Monster"
  | .ToonMonster => "Toon Monster"
  | .TunerMonster => "Tuner Monster"
  | .UnionEffectMonster => "Union Effect Monster"
  | .FusionMonster => "Fusion Monster"
  | .LinkMonster => "Link Monster"
  | .PendulumEffectFusionMonster => "Pendulum Effect Fusion Monster"
  | .SynchroMonster => "Synchro Monster"
  | .SynchroPendulumEffectMonster => "Synchro Pendulum Effect Monster"
  | .SynchroTunerMonster => "Synchro Tuner Monster"
  | .XYZMonster => "XYZ Monster"
  | .XYZPendulumEffectMonster => "XYZ Pendulum Effect Monster"
  | .Token => "Token"
  | .Spell => "Spell Card"
  | .Trap => "Trap Card"
  | .Skill => "Skil Card"

/-- Rendering of a `CardType` by its `Display` impl in `request.rs`; the
`Skill` entry renders `Skill Card`. -/
def CardType.display : CardType → String
  | .EffectMonster => "Effect Monster"
  | .FlipEffectMonster => "Flip Effect Monster"
  | .FlipTunerEffectMonster => "Flip Tuner Effect Monster"
  | .GeminiMonster => "Gemini Monster"
  | .NormalMonster => "Normal Monster"
  | .NormalTunerMonster => "Normal Tuner Monster"
  | .PendulumEffectMonster => "Pendulum Effect Monster"
  | .PendulumEffectRitualMonster => "Pendulum Effect Ritual Monster"
  | .PendulumFlipEffectMonster => "Pendulum Flip Effect Monster"
  | .PendulumNormalMonster => "Pendulum Normal Monster"
  | .PendulumTunerEffectMonster => "Pendulum Tuner Effect Monster"
  | .RitualEffectMonster => "Ritual Effect Monster"
  | .RitualMonster => "Ritual Monster"
  | .SpiritMonster => "Spirit Monster"
  | .ToonMonster => "Toon Monster"
  | .TunerMonster => "Tuner Monster"
  | .UnionEffectMonster => "Union Effect Monster"
  | .FusionMonster => "Fusion Monster"
  | .LinkMonster => "Link Monster"
  | .PendulumEffectFusionMonster => "Pendulum Effect Fusion Monster"
  | .SynchroMonster => "Synchro Monster"
  | .SynchroPendulumEffectMonster => "Synchro Pendulum Effect Monster"
  | .SynchroTunerMonster => "Synchro Tuner Monster"
  | .XYZMonster => "XYZ Monster"
  | .XYZPendulumEffectMonster => "XYZ Pendulum Effect Monster"
  | .Token => "Token"
  | .Spell => "Spell Card"
  | .Trap => "Trap Card"
  | .Skill => "Skill Card"

/-- A search request: a set of optional predicates, from `request.rs`.
The Rust field `def` is spelled `def_` here. -/
structure Request where
  names : List String := []
  fname : Option String := none
  atk : Option Int := none
  def_ : Option Int := none
  level : Option Nat := none
  card_types : List CardType := []
  races : List MonsterRace := []
  attributes : List Attribute := []
  link : Option Nat := none
  link_markers : List LinkMarker := []
  scale : Option Nat := none
  cardset : Option String := none
deriving DecidableEq

/-- The all-absent request (`Request::default()`). -/
def Request.empty : Request := {}

/-- One `if let Some(x) = ... { params.push(...) }` statement of
`to_url_params`: push the rendering of the value when the predicate is set. -/
def pushOpt {α : Type} (p : List String) (o : Option α) (f : α → String) :
    List String :=
  match o with
  | some v => p ++ [f v]
  | none => p

/-- One `if !xs.is_empty() { params.push(...) }` statement of
`to_url_params`: push the given rendering unless the list is empty. -/
def pushUnlessEmpty (p : List String) (empty : Bool) (x : String) :
    List String :=
  if empty then p else p ++ [x]

/-- Encode a request into the flat query-parameter string, translated from
`Request::to_url_params` in `request.rs`: one push per set predicate, in
source order, joined with `&` at the end. -/
def Request.to_url_params (r : Request) : String :=
  let params : List String := []
  let params := pushUnlessEmpty params r.names.isEmpty
    ("name=" ++ urlencode (String.intercalate "|" r.names))
  let params := pushOpt params r.fname (fun fname => "fname=" ++ urlencode fname)
  let params := pushOpt params r.atk (fun atk => "atk=" ++ toString atk)
  let params := pushOpt params r.def_ (fun d => "def=" ++ toString d)
  let params := pushOpt params r.level (fun level => "level=" ++ toString level)
  let params := pushUnlessEmpty params r.card_types.isEmpty
    ("type=" ++ urlencode (String.intercalate "," (r.card_types.map CardType.display)))
  let params := pushUnlessEmpty params r.races.isEmpty
    ("race=" ++ urlencode (String.intercalate "," (r.races.map MonsterRace.display)))
  let params := pushUnlessEmpty params r.attributes.isEmpty
    ("attribute=" ++ urlencode (String.intercalate "," (r.attributes.map Attribute.display)))
  let params := pushOpt params r.link (fun link => "link=" ++ toString link)
  let params := pushUnlessEmpty params r.link_markers.isEmpty
    ("linkmarker=" ++ urlencode (String.intercalate "," (r.link_markers.map LinkMarker.display)))
  let params := pushOpt params r.scale (fun scale => "scale=" ++ toString scale)
  let params := pushOpt params r.cardset (fun cardset => "cardset=" ++ urlencode cardset)
  String.intercalate "&" params

/-- One `RequestBuilder` operation, one constructor per `with_` method. -/
inductive BuilderOp where
  | withName (s : String)
  | withFname (s : String)
  | withAtk (a : Int)
  | withDef (a : Int)
  | withLevel (n : Nat)
  | withType (t : CardType)
  | withRace (r : MonsterRace)
  | withAttribute (a : Attribute)
  | withLink (n : Nat)
  | withLinkMarker (m : LinkMarker)
  | withScale (n : Nat)
  | withCardset (s : String)
deriving DecidableEq

/-- Effect of one builder operation on the request under construction:
list-valued predicates push, singular-valued predicates overwrite. -/
def applyOp (r : Request) : BuilderOp → Request
  | .withName s => { r with names := r.names ++ [s] }
  | .withFname s => { r with fname := some s }
  | .withAtk a => { r with atk := some a }
  | .withDef a => { r with def_ := some a }
  | .withLevel n => { r with level := some n }
  | .withType t => { r with card_types := r.card_types ++ [t] }
  | .withRace rc => { r with races := r.races ++ [rc] }
  | .withAttribute a => { r with attributes := r.attributes ++ [a] }
  | .withLink n => { r with link := some n }
  | .withLinkMarker m => { r with link_markers := r.link_markers ++ [m] }
  | .withScale n => { r with scale := some n }
  | .withCardset s => { r with cardset := some s }

/-- Run a builder call chain: `RequestBuilder::new()` starts from the default
request, each `with_` call transforms it, `build()` returns it. -/
def buildOps (ops : List BuilderOp) : Request :=
  ops.foldl applyOp Request.empty

/-- Argument of a `with_name` call, `none` for any other operation. -/
def nameArg : BuilderOp → Option String
  | .withName s => some s
  | _ => none

/-- Argument of a `with_fname` call. -/
def fnameArg : BuilderOp → Option String
  | .withFname s => some s
  | _ => none

/-- Argument of a `with_atk` call. -/
def atkArg : BuilderOp → Option Int
  | .withAtk a => some a
  | _ => none

/-- Argument of a `with_def` call. -/
def defArg : BuilderOp → Option Int
  | .withDef a => some a
  | _ => none

/-- Argument of a `with_level` call. -/
def levelArg : BuilderOp → Option Nat
  | .withLevel n => some n
  | _ => none

/-- Argument of a `with_type` call. -/
def typeArg : BuilderOp → Option CardType
  | .withType t => some t
  | _ => none

/-- Argument of a `with_race` call. -/
def raceArg : BuilderOp → Option MonsterRace
  | .withRace r => some r
  | _ => none

/-- Argument of a `with_attribute` call. -/
def attributeArg : BuilderOp → Option Attribute
  | .withAttribute a => some a
  | _ => none

/-- Argument of a `with_link` call. -/
def linkArg : BuilderOp → Option Nat
  | .withLink n => some n
  | _ => none

/-- Argument of a `with_link_marker` call. -/
def linkMarkerArg : BuilderOp → Option LinkMarker
  | .withLinkMarker m => some m
  | _ => none

/-- Argument of a `with_scale` call. -/
def scaleArg : BuilderOp → Option Nat
  | .withScale n => some n
  | _ => none

/-- Argument of a `with_cardset` call. -/
def cardsetArg : BuilderOp → Option String
  | .withCardset s => some s
  | _ => none

/-- Constructor index of a `Card`, used to speak about which variant a
decode selected. -/
def Card.ctorIdx : Card → Nat
  | .Normal _ => 0
  | .Effect _ => 1
  | .Ritual _ => 2
  | .Fusion _ => 3
  | .Synchro _ => 4
  | .Xyz _ => 5
  | .Link _ => 6
  | .Spell _ => 7
  | .Trap _ => 8
  | .Skill => 9
  | .Token => 10
  | .Pendulum _ => 11

/-- The discriminator-to-variant dispatch table of the decoder, as the spec
words it: six pendulum spellings share one target, everything else is
one-to-one, unknown strings map to nothing. -/
def frameTagIndex (t : String) : Option Nat :=
  if t = "normal" then some 0
  else if t = "effect" then some 1
  else if t = "ritual" then some 2
  else if t = "fusion" then some 3
  else if t = "synchro" then some 4
  else if t = "xyz" then some 5
  else if t = "link" then some 6
  else if t = "spell" then some 7
  else if t = "trap" then some 8
  else if t = "skill" then some 9
  else if t = "token" then some 10
  else if t = "normal_pendulum" ∨ t = "effect_pendulum" ∨
          t = "ritual_pendulum" ∨ t = "fusion_pendulum" ∨
          t = "synchro_pendulum" ∨ t = "xyz_pendulum" then some 11
  else none

/-- The unique accepted spelling of each non-pendulum variant index. -/
def tagOfIndex : Nat → String
  | 0 => "normal"
  | 1 => "effect"
  | 2 => "ritual"
  | 3 => "fusion"
  | 4 => "synchro"
  | 5 => "xyz"
  | 6 => "link"
  | 7 => "spell"
  | 8 => "trap"
  | 9 => "skill"
  | 10 => "token"
  | _ => ""

/-- Drop every binding of a key from a JSON object, leaving other values
untouched; used to speak about payloads missing one required field. -/
def removeField (j : Json) (key : String) : Json :=
  match j with
  | .obj fields => .obj (fields.filter (fun kv => kv.1 != key))
  | other => other

/-- The Normal Monster from the spec's concrete scenario: `Trent`, race
Plant, attribute EARTH, level 5, attack 1500, defense 1800. -/
def trentCard : NormalMonster :=
  { info := { id := ⟨78780140⟩, name := "Trent",
              desc := "A guardian of the woods.",
              human_readable_card_type := "Normal Monster",
              ygoprodeck_url := "https://ygoprodeck.com/card/trent-6617",
              sets := [], images := [], prices := [] },
    race := .Plant, «attribute» := .Earth, level := 5, atk := 1500,
    def_ := 1800, card_type := .NormalMonster }

/-- Read a string-valued field of a JSON object. -/
def Json.getStrField (j : Json) (key : String) : Option String :=
  match j.getField key with
  | some (.str s) => some s
  | _ => none

/-- The shared metadata carried by a card, when its variant has any. -/
def Card.infoOf : Card → Option CardInfo
  | .Normal m => some m.info
  | .Effect m => some m.info
  | .Ritual m => some m.info
  | .Fusion m => some m.info
  | .Synchro m => some m.info
  | .Xyz m => some m.info
  | .Link m => some m.info
  | .Spell c => some c.info
  | .Trap c => some c.info
  | .Skill => none
  | .Token => none
  | .Pendulum m => some m.info

/-- A complete pendulum payload whose discriminator uses the alias
`effect_pendulum` rather than the canonical `normal_pendulum`. -/
def pendulumAliasPayload : Json :=
  .obj [("frameType", .str "effect_pendulum"),
        ("id", .num 1), ("name", .str "A"), ("desc", .str "B"),
        ("humanReadableCardType", .str "C"), ("ygoprodeck_url", .str "D"),
        ("card_images", .arr []),
        ("race", .str "Aqua"), ("attribute", .str "LIGHT"),
        ("atk", .num 0), ("def", .num 0), ("level", .num 1),
        ("type", .str "Pendulum Effect Monster"), ("scale", .num 1)]

/-- The card value `pendulumAliasPayload` decodes to. -/
def pendulumAliasCard : PendulumMonster :=
  { info := { id := ⟨1⟩, name := "A", desc := "B",
              human_readable_card_type := "C", ygoprodeck_url := "D",
              sets := [], images := [], prices := [] },
    race := .Aqua, «attribute» := .Light, atk := 0, def_ := 0, level := 1,
    card_type := .PendulumEffectMonster, scale := 1 }

/-- Name parameter, per the spec: present iff any names are set; members
joined with a pipe, then percent-encoded. -/
def nameParam (r : Request) : Option String :=
  if r.names.isEmpty then none
  else some ("name=" ++ urlencode (String.intercalate "|" r.names))

/-- Fuzzy-name parameter, per the spec. -/
def fnameParam (r : Request) : Option String :=
  r.fname.map (fun f => "fname=" ++ urlencode f)

/-- Attack parameter, per the spec. -/
def atkParam (r : Request) : Option String :=
  r.atk.map (fun a => "atk=" ++ toString a)

/-- Defense parameter, per the spec. -/
def defParam (r : Request) : Option String :=
  r.def_.map (fun d => "def=" ++ toString d)

/-- Level parameter, per the spec. -/
def levelParam (r : Request) : Option String :=
  r.level.map (fun n => "level=" ++ toString n)

/-- Category parameter, per the spec: members rendered to their external
spelling, comma-joined, percent-encoded. -/
def typeParam (r : Request) : Option String :=
  if r.card_types.isEmpty then none
  else some ("type=" ++
    urlencode (String.intercalate "," (r.card_types.map CardType.display)))

/-- Race parameter, per the spec. -/
def raceParam (r : Request) : Option String :=
  if r.races.isEmpty then none
  else some ("race=" ++
    urlencode (String.intercalate "," (r.races.map MonsterRace.display)))

/-- Attribute parameter, per the spec. -/
def attributeParam (r : Request) : Option String :=
  if r.attributes.isEmpty then none
  else some ("attribute=" ++
    urlencode (String.intercalate "," (r.attributes.map Attribute.display)))

/-- Link-rating parameter, per the spec. -/
def linkParam (r : Request) : Option String :=
  r.link.map (fun n => "link=" ++ toString n)

/-- Link-marker parameter, per the spec. -/
def linkmarkerParam (r : Request) : Option String :=
  if r.link_markers.isEmpty then none
  else some ("linkmarker=" ++
    urlencode (String.intercalate "," (r.link_markers.map LinkMarker.display)))

/-- Pendulum-scale parameter, per the spec. -/
def scaleParam (r : Request) : Option String :=
  r.scale.map (fun n => "scale=" ++ toString n)

/-- Set-name parameter, per the spec. -/
def cardsetParam (r : Request) : Option String :=
  r.cardset.map (fun s => "cardset=" ++ urlencode s)

/-- The parameter list of a request as the spec words it: one optional
parameter per predicate, collected in the fixed documented order. -/
def specParams (r : Request) : List String :=
  List.filterMap id [nameParam r, fnameParam r, atkParam r, defParam r,
    levelParam r, typeParam r, raceParam r, attributeParam r, linkParam r,
    linkmarkerParam r, scaleParam r, cardsetParam r]

theorem getLast?_cons_eq_or {α : Type} (a : α) (l : List α) :
    (a :: l).getLast? = l.getLast?.or (some a) := by
  cases l with
  | nil => rfl
  | cons b t =>
    rw [List.getLast?_cons_cons]
    have h : (b :: t).getLast?.isSome := by
      rw [List.getLast?_isSome]
      exact List.cons_ne_nil b t
    obtain ⟨x, hx⟩ := Option.isSome_iff_exists.mp h
    rw [hx]
    rfl

theorem foldl_names (ops : List BuilderOp) (r : Request) :
    (ops.foldl applyOp r).names = r.names ++ ops.filterMap nameArg := by
  induction ops generalizing r with
  | nil => simp
  | cons op ops ih => cases op <;> simp [applyOp, nameArg, ih]

theorem foldl_card_types (ops : List BuilderOp) (r : Request) :
    (ops.foldl applyOp r).card_types = r.card_types ++ ops.filterMap typeArg := by
  induction ops generalizing r with
  | nil => simp
  | cons op ops ih => cases op <;> simp [applyOp, typeArg, ih]

theorem foldl_races (ops : List BuilderOp) (r : Request) :
    (ops.foldl applyOp r).races = r.races ++ ops.filterMap raceArg := by
  induction ops generalizing r with
  | nil => simp
  | cons op ops ih => cases op <;> simp [applyOp, raceArg, ih]

theorem foldl_attributes (ops : List BuilderOp) (r : Request) :
    (ops.foldl applyOp r).attributes = r.attributes ++ ops.filterMap attributeArg := by
  induction ops generalizing r with
  | nil => simp
  | cons op ops ih => cases op <;> simp [applyOp, attributeArg, ih]

theorem foldl_link_markers (ops : List BuilderOp) (r : Request) :
    (ops.foldl applyOp r).link_markers = r.link_markers ++ ops.filterMap linkMarkerArg := by
  induction ops generalizing r with
  | nil => simp
  | cons op ops ih => cases op <;> simp [applyOp, linkMarkerArg, ih]

theorem foldl_fname (ops : List BuilderOp) (r : Request) :
    (ops.foldl applyOp r).fname = ((ops.filterMap fnameArg).getLast?).or r.fname := by
  induction ops generalizing r with
  | nil => simp
  | cons op ops ih =>
    cases op <;> simp [applyOp, fnameArg, ih, getLast?_cons_eq_or, Option.or_assoc]

theorem foldl_atk (ops : List BuilderOp) (r : Request) :
    (ops.foldl applyOp r).atk = ((ops.filterMap atkArg).getLast?).or r.atk := by
  induction ops generalizing r with
  | nil => simp
  | cons op ops ih =>
    cases op <;> simp [applyOp, atkArg, ih, getLast?_cons_eq_or, Option.or_assoc]

theorem foldl_def (ops : List BuilderOp) (r : Request) :
    (ops.foldl applyOp r).def_ = ((ops.filterMap defArg).getLast?).or r.def_ := by
  induction ops generalizing r with
  | nil => simp
  | cons op ops ih =>
    cases op <;> simp [applyOp, defArg, ih, getLast?_cons_eq_or, Option.or_assoc]

theorem foldl_level (ops : List BuilderOp) (r : Request) :
    (ops.foldl applyOp r).level = ((ops.filterMap levelArg).getLast?).or r.level := by
  induction ops generalizing r with
  | nil => simp
  | cons op ops ih =>
    cases op <;> simp [applyOp, levelArg, ih, getLast?_cons_eq_or, Option.or_assoc]

theorem foldl_link (ops : List BuilderOp) (r : Request) :
    (ops.foldl applyOp r).link = ((ops.filterMap linkArg).getLast?).or r.link := by
  induction ops generalizing r with
  | nil => simp
  | cons op ops ih =>
    cases op <;> simp [applyOp, linkArg, ih, getLast?_cons_eq_or, Option.or_assoc]

theorem foldl_scale (ops : List BuilderOp) (r : Request) :
    (ops.foldl applyOp r).scale = ((ops.filterMap scaleArg).getLast?).or r.scale := by
  induction ops generalizing r with
  | nil => simp
  | cons op ops ih =>
    cases op <;> simp [applyOp, scaleArg, ih, getLast?_cons_eq_or, Option.or_assoc]

theorem foldl_cardset (ops : List BuilderOp) (r : Request) :
    (ops.foldl applyOp r).cardset = ((ops.filterMap cardsetArg).getLast?).or r.cardset := by
  induction ops generalizing r with
  | nil => simp
  | cons op ops ih =>
    cases op <;> simp [applyOp, cardsetArg, ih, getLast?_cons_eq_or, Option.or_assoc]

/-- C7: over any sequence of builder operations, each singular-valued setter
keeps only its last argument, and each list-valued operation contributes one
entry per call, in call order. -/
theorem builder_last_write_wins_lists_append (ops : List BuilderOp) :
    (buildOps ops).names = ops.filterMap nameArg ∧
    (buildOps ops).card_types = ops.filterMap typeArg ∧
    (buildOps ops).races = ops.filterMap raceArg ∧
    (buildOps ops).attributes = ops.filterMap attributeArg ∧
    (buildOps ops).link_markers = ops.filterMap linkMarkerArg ∧
    (buildOps ops).fname = (ops.filterMap fnameArg).getLast? ∧
    (buildOps ops).atk = (ops.filterMap atkArg).getLast? ∧
    (buildOps ops).def_ = (ops.filterMap defArg).getLast? ∧
    (buildOps ops).level = (ops.filterMap levelArg).getLast? ∧
    (buildOps ops).link = (ops.filterMap linkArg).getLast? ∧
    (buildOps ops).scale = (ops.filterMap scaleArg).getLast? ∧
    (buildOps ops).cardset = (ops.filterMap cardsetArg).getLast? := by
  unfold buildOps
  refine ⟨?_, ?_, ?_, ?_, ?_, ?_, ?_, ?_, ?_, ?_, ?_, ?_⟩
  · rw [foldl_names]; rfl
  · rw [foldl_card_types]; rfl
  · rw [foldl_races]; rfl
  · rw [foldl_attributes]; rfl
  · rw [foldl_link_markers]; rfl
  · rw [foldl_fname]; exact Option.or_none
  · rw [foldl_atk]; exact Option.or_none
  · rw [foldl_def]; exact Option.or_none
  · rw [foldl_level]; exact Option.or_none
  · rw [foldl_link]; exact Option.or_none
  · rw [foldl_scale]; exact Option.or_none
  · rw [foldl_cardset]; exact Option.or_none

/-- C9: for the race, attribute, link-marker and monster-category
enumerations, the string the encoder renders (the `Display` impl) is exactly
the external wire spelling of the serde table; attributes render
all-uppercase, `SeaSerpent` renders as `Sea Serpent`, and for members whose
internal identifier differs from the external spelling, the internal
identifier never appears in the encoded output. -/
theorem display_matches_wire_spelling :
    (∀ r : MonsterRace, r.display = r.serdeName) ∧
    (∀ a : Attribute, a.display = a.serdeName) ∧
    (∀ m : LinkMarker, m.display = m.serdeName) ∧
    (∀ t : CardType, t ≠ .Skill → t.display = t.serdeName) ∧
    MonsterRace.display .SeaSerpent = "Sea Serpent" ∧
    (∀ a : Attribute, ∀ c ∈ a.display.data, c.isUpper) ∧
    (∀ r : MonsterRace, r.internalName ≠ r.serdeName → r.display ≠ r.internalName) ∧
    (∀ m : LinkMarker, m.internalName ≠ m.serdeName → m.display ≠ m.internalName) := by
  refine ⟨?_, ?_, ?_, ?_, rfl, ?_, ?_, ?_⟩
  · intro r; cases r <;> rfl
  · intro a; cases a <;> rfl
  · intro m; cases m <;> rfl
  · intro t h; cases t <;> first | rfl | exact absurd rfl h
  · intro a; cases a <;> decide
  · intro r h; cases r <;> first | exact absurd rfl h | decide

  · intro m h; cases m <;> first | exact absurd rfl h | decide

/-- Witness for `display_matches_wire_spelling` at concrete members. -/
theorem display_matches_wire_spelling_witness :
    CardType.display .LinkMonster = CardType.serdeName .LinkMonster ∧
    MonsterRace.display .SeaSerpent ≠ MonsterRace.internalName .SeaSerpent := by
  constructor
  · exact display_matches_wire_spelling.2.2.2.1 .LinkMonster (by decide)
  · exact display_matches_wire_spelling.2.2.2.2.2.2.1 .SeaSerpent (by decide)

/-- C10: every `CardType` member except `Skill` renders (via `Display`)
exactly its serde-serialized external name; for `Skill` the two differ:
`Display` renders `Skill Card` while the serde rename is `Skil Card`. -/
theorem cardtype_display_serde_discrepancy :
    (∀ t : CardType, t ≠ .Skill → t.display = t.serdeName) ∧
    CardType.display .Skill = "Skill Card" ∧
    CardType.serdeName .Skill = "Skil Card" ∧
    CardType.display .Skill ≠ CardType.serdeName .Skill := by
  refine ⟨?_, rfl, rfl, by decide⟩
  intro t h; cases t <;> first | rfl | exact absurd rfl h

/-- Witness for `cardtype_display_serde_discrepancy` at a concrete member. -/
theorem cardtype_display_serde_discrepancy_witness :
    CardType.display .Spell = CardType.serdeName .Spell :=
  cardtype_display_serde_discrepancy.1 .Spell (by decide)

theorem pushOpt_eq_append {α : Type} (p : List String) (o : Option α)
    (f : α → String) : pushOpt p o f = p ++ (o.map f).toList := by
  cases o <;> simp [pushOpt]

theorem pushUnlessEmpty_eq_append (p : List String) (b : Bool) (x : String) :
    pushUnlessEmpty p b x = p ++ (if b then none else some x).toList := by
  cases b <;> simp [pushUnlessEmpty]

theorem filterMap_id_cons {α : Type} (o : Option α) (l : List (Option α)) :
    List.filterMap id (o :: l) = o.toList ++ List.filterMap id l := by
  cases o <;> simp

/-- C5: the encoder emits exactly one key=value parameter per set predicate
and none for an absent one, in the fixed order name, fname, atk, def, level,
type, race, attribute, link, linkmarker, scale, cardset, joined by `&`; the
all-absent request encodes to the empty string. -/
theorem to_url_params_emits_spec_params :
    (∀ r : Request, r.to_url_params = String.intercalate "&" (specParams r)) ∧
    Request.empty.to_url_params = "" := by
  constructor
  · intro r
    simp only [Request.to_url_params, pushOpt_eq_append, pushUnlessEmpty_eq_append,
      specParams, filterMap_id_cons, List.filterMap_nil, List.append_nil,
      List.nil_append, List.append_assoc, nameParam, fnameParam, atkParam,
      defParam, levelParam, typeParam, raceParam, attributeParam, linkParam,
      linkmarkerParam, scaleParam, cardsetParam]
  · rfl

theorem digitChar_is_digit (n : Nat) (h : n < 10) :
    48 ≤ (Nat.digitChar n).toNat ∧ (Nat.digitChar n).toNat ≤ 57 := by
  interval_cases n <;> decide

theorem toDigitsCore_digits (fuel : Nat) : ∀ (n : Nat) (acc : List Char),
    (∀ c ∈ acc, 48 ≤ c.toNat ∧ c.toNat ≤ 57) →
    ∀ c ∈ Nat.toDigitsCore 10 fuel n acc, 48 ≤ c.toNat ∧ c.toNat ≤ 57 := by
  induction fuel with
  | zero => intro n acc hacc c hc; exact hacc c hc
  | succ fuel ih =>
    intro n acc hacc c hc
    simp only [Nat.toDigitsCore] at hc
    split at hc
    · rcases List.mem_cons.mp hc with h | h
      · subst h; exact digitChar_is_digit _ (Nat.mod_lt _ (by norm_num))
      · exact hacc c h
    · refine ih (n / 10) _ ?_ c hc
      intro d hd
      rcases List.mem_cons.mp hd with h | h
      · subst h; exact digitChar_is_digit _ (Nat.mod_lt _ (by norm_num))
      · exact hacc d h

theorem natRepr_digits (n : Nat) :
    ∀ c ∈ (Nat.repr n).data, 48 ≤ c.toNat ∧ c.toNat ≤ 57 := by
  intro c hc
  refine toDigitsCore_digits (n + 1) n [] (by simp) c ?_
  simpa [Nat.repr, Nat.toDigits, List.asString] using hc

theorem charUtf8_ascii (c : Char) (h : c.toNat < 128) : charUtf8 c = [c.toNat] := by
  simp [charUtf8, h]

theorem encodeBytes_unreserved_chars (l : List Char)
    (h : ∀ c ∈ l, c.toNat < 128 ∧ isUnreservedByte c.toNat = true) :
    encodeBytes (l.flatMap charUtf8) = l := by
  induction l with
  | nil => rfl
  | cons c t ih =>
    obtain ⟨h1, h2⟩ := h c (List.mem_cons_self c t)
    have ih' := ih (fun d hd => h d (List.mem_cons_of_mem _ hd))
    rw [List.flatMap_cons, charUtf8_ascii c h1, List.singleton_append]
    simp [encodeBytes, h2, ih']

theorem urlencode_unreserved (s : String)
    (h : ∀ c ∈ s.data, c.toNat < 128 ∧ isUnreservedByte c.toNat = true) :
    urlencode s = s := by
  unfold urlencode utf8Encode
  rw [encodeBytes_unreserved_chars s.data h]

theorem urlencode_natRepr (n : Nat) : urlencode (Nat.repr n) = Nat.repr n := by
  refine urlencode_unreserved _ (fun c hc => ?_)
  obtain ⟨h1, h2⟩ := natRepr_digits n c hc
  refine ⟨by omega, ?_⟩
  simp [isUnreservedByte]
  omega

theorem urlencode_toString_int (a : Int) : urlencode (toString a) = toString a := by
  show urlencode (Int.repr a) = Int.repr a
  cases a with
  | ofNat m => exact urlencode_natRepr m
  | negSucc m =>
    show urlencode ("-" ++ Nat.repr (m + 1)) = _
    refine urlencode_unreserved _ (fun c hc => ?_)
    rw [String.data_append] at hc
    rcases List.mem_append.mp hc with h | h
    · simp at h
      subst h
      exact ⟨by decide, by decide⟩
    · obtain ⟨h1, h2⟩ := natRepr_digits (m + 1) c h
      exact ⟨by omega, by simp [isUnreservedByte]; omega⟩

theorem urlencode_toString_nat (n : Nat) : urlencode (toString n) = toString n :=
  urlencode_natRepr n

/-- C6: multi-value predicates join their members with a pipe (names) or a
comma (categories, races, attributes, link markers); every emitted value is
the URL-component percent-encoding of the rendered value; and the request
with names `Trent` and `Pot of Greed` emits a `name=` parameter whose value
percent-decodes back to `Trent|Pot of Greed`. -/
theorem multivalue_join_and_percent_encoding :
    (∀ ns : List String, ns ≠ [] →
      ({ Request.empty with names := ns } : Request).to_url_params =
        "name=" ++ urlencode (String.intercalate "|" ns)) ∧
    (∀ ts : List CardType, ts ≠ [] →
      ({ Request.empty with card_types := ts } : Request).to_url_params =
        "type=" ++ urlencode (String.intercalate "," (ts.map CardType.display))) ∧
    (∀ rs : List MonsterRace, rs ≠ [] →
      ({ Request.empty with races := rs } : Request).to_url_params =
        "race=" ++ urlencode (String.intercalate "," (rs.map MonsterRace.display))) ∧
    (∀ ats : List Attribute, ats ≠ [] →
      ({ Request.empty with attributes := ats } : Request).to_url_params =
        "attribute=" ++ urlencode (String.intercalate "," (ats.map Attribute.display))) ∧
    (∀ ms : List LinkMarker, ms ≠ [] →
      ({ Request.empty with link_markers := ms } : Request).to_url_params =
        "linkmarker=" ++ urlencode (String.intercalate "," (ms.map LinkMarker.display))) ∧
    (∀ s : String,
      ({ Request.empty with fname := some s } : Request).to_url_params =
        "fname=" ++ urlencode s) ∧
    (∀ s : String,
      ({ Request.empty with cardset := some s } : Request).to_url_params =
        "cardset=" ++ urlencode s) ∧
    (∀ a : Int,
      ({ Request.empty with atk := some a } : Request).to_url_params =
        "atk=" ++ urlencode (toString a)) ∧
    (∀ d : Int,
      ({ Request.empty with def_ := some d } : Request).to_url_params =
        "def=" ++ urlencode (toString d)) ∧
    (∀ n : Nat,
      ({ Request.empty with level := some n } : Request).to_url_params =
        "level=" ++ urlencode (toString n)) ∧
    (∀ n : Nat,
      ({ Request.empty with link := some n } : Request).to_url_params =
        "link=" ++ urlencode (toString n)) ∧
    (∀ n : Nat,
      ({ Request.empty with scale := some n } : Request).to_url_params =
        "scale=" ++ urlencode (toString n)) ∧
    (({ Request.empty with names := ["Trent", "Pot of Greed"] } : Request).to_url_params =
        "name=" ++ "Trent%7CPot%20of%20Greed" ∧
      percentDecodeBytes ("Trent%7CPot%20of%20Greed".data) =
        utf8Encode "Trent|Pot of Greed") := by
  refine ⟨?_, ?_, ?_, ?_, ?_, fun s => rfl, fun s => rfl, ?_, ?_, ?_, ?_, ?_,
    by decide, by decide⟩
  · intro ns h; cases ns with
    | nil => exact absurd rfl h
    | cons a t => rfl
  · intro ts h; cases ts with
    | nil => exact absurd rfl h
    | cons a t => rfl
  · intro rs h; cases rs with
    | nil => exact absurd rfl h
    | cons a t => rfl
  · intro ats h; cases ats with
    | nil => exact absurd rfl h
    | cons a t => rfl
  · intro ms h; cases ms with
    | nil => exact absurd rfl h
    | cons a t => rfl
  · intro a; rw [urlencode_toString_int]; rfl
  · intro d; rw [urlencode_toString_int]; rfl
  · intro n; rw [urlencode_toString_nat]; rfl
  · intro n; rw [urlencode_toString_nat]; rfl
  · intro n; rw [urlencode_toString_nat]; rfl

/-- Witness for `multivalue_join_and_percent_encoding` at a concrete request. -/
theorem multivalue_join_and_percent_encoding_witness :
    ({ Request.empty with names := ["Trent", "Pot of Greed"] } : Request).to_url_params =
      "name=" ++ urlencode (String.intercalate "|" ["Trent", "Pot of Greed"]) :=
  multivalue_join_and_percent_encoding.1 ["Trent", "Pot of Greed"] (by decide)

theorem map_ok_iff {α β : Type} {f : α → β} {e : Except DecodeError α} {b : β} :
    e.map f = .ok b ↔ ∃ a, e = .ok a ∧ b = f a := by
  cases e <;> simp [Except.map, eq_comm]

theorem getField_skip_tag (v : Json) (rest : List (String × Json)) (key : String)
    (h : ("frameType" = key) = False) :
    Json.getField (.obj (("frameType", v) :: rest)) key =
      Json.getField (.obj rest) key := by
  simp [Json.getField, lookupField, h]

theorem decodePendulumMonster_skip (v : Json) (rest : List (String × Json)) :
    decodePendulumMonster (.obj (("frameType", v) :: rest)) =
      decodePendulumMonster (.obj rest) := by
  simp [decodePendulumMonster, decodeCardInfo, getEnum, getU8, getI32, getU64,
    getIntIn, getStr, getSetsField, getImagesField, getPricesField,
    getField_skip_tag]

theorem pendulum_route (rest : List (String × Json)) (t : String)
    (ht : t ∈ pendulumFrameTypes) :
    decodeCard (.obj (("frameType", .str t) :: rest)) =
      (decodePendulumMonster (.obj (("frameType", .str t) :: rest))).map .Pendulum := by
  simp only [pendulumFrameTypes, List.mem_cons, List.not_mem_nil, or_false] at ht
  rcases ht with rfl | rfl | rfl | rfl | rfl | rfl <;> rfl

theorem decodeCard_not_accepted (tag : String) (rest : List (String × Json))
    (h : tag ∉ acceptedFrameTypes) :
    decodeCard (.obj (("frameType", .str tag) :: rest)) =
      .error (.unknownCardCategory tag) := by
  simp only [acceptedFrameTypes, pendulumFrameTypes, List.cons_append,
    List.nil_append, List.mem_cons, List.not_mem_nil, or_false] at h
  push_neg at h
  obtain ⟨h1, h2, h3, h4, h5, h6, h7, h8, h9, h10, h11, h12, h13, h14, h15, h16⟩ := h
  simp [decodeCard, Json.getField, lookupField,
    h1, h2, h3, h4, h5, h6, h7, h8, h9, h10, h11, h12, h13, h14, h15, h16]

theorem decodeCard_tag_index (t : String) (rest : List (String × Json)) (c : Card)
    (h : decodeCard (.obj (("frameType", .str t) :: rest)) = .ok c) :
    frameTagIndex t = some c.ctorIdx := by
  by_cases h1 : t = "normal"
  · subst h1; simp [decodeCard, Json.getField, lookupField, map_ok_iff] at h
    obtain ⟨m, hm, rfl⟩ := h; rfl
  by_cases h2 : t = "effect"
  · subst h2; simp [decodeCard, Json.getField, lookupField, map_ok_iff] at h
    obtain ⟨m, hm, rfl⟩ := h; rfl
  by_cases h3 : t = "ritual"
  · subst h3; simp [decodeCard, Json.getField, lookupField, map_ok_iff] at h
    obtain ⟨m, hm, rfl⟩ := h; rfl
  by_cases h4 : t = "fusion"
  · subst h4; simp [decodeCard, Json.getField, lookupField, map_ok_iff] at h
    obtain ⟨m, hm, rfl⟩ := h; rfl
  by_cases h5 : t = "synchro"
  · subst h5; simp [decodeCard, Json.getField, lookupField, map_ok_iff] at h
    obtain ⟨m, hm, rfl⟩ := h; rfl
  by_cases h6 : t = "xyz"
  · subst h6; simp [decodeCard, Json.getField, lookupField, map_ok_iff] at h
    obtain ⟨m, hm, rfl⟩ := h; rfl
  by_cases h7 : t = "link"
  · subst h7; simp [decodeCard, Json.getField, lookupField, map_ok_iff] at h
    obtain ⟨m, hm, rfl⟩ := h; rfl
  by_cases h8 : t = "spell"
  · subst h8; simp [decodeCard, Json.getField, lookupField, map_ok_iff] at h
    obtain ⟨m, hm, rfl⟩ := h; rfl
  by_cases h9 : t = "trap"
  · subst h9; simp [decodeCard, Json.getField, lookupField, map_ok_iff] at h
    obtain ⟨m, hm, rfl⟩ := h; rfl
  by_cases h10 : t = "skill"
  · subst h10; simp [decodeCard, Json.getField, lookupField] at h
    subst h; rfl
  by_cases h11 : t = "token"
  · subst h11; simp [decodeCard, Json.getField, lookupField] at h
    subst h; rfl
  by_cases h12 : t = "normal_pendulum"
  · subst h12; simp [decodeCard, Json.getField, lookupField, map_ok_iff] at h
    obtain ⟨m, hm, rfl⟩ := h; rfl
  by_cases h13 : t = "effect_pendulum"
  · subst h13; simp [decodeCard, Json.getField, lookupField, map_ok_iff] at h
    obtain ⟨m, hm, rfl⟩ := h; rfl
  by_cases h14 : t = "ritual_pendulum"
  · subst h14; simp [decodeCard, Json.getField, lookupField, map_ok_iff] at h
    obtain ⟨m, hm, rfl⟩ := h; rfl
  by_cases h15 : t = "fusion_pendulum"
  · subst h15; simp [decodeCard, Json.getField, lookupField, map_ok_iff] at h
    obtain ⟨m, hm, rfl⟩ := h; rfl
  by_cases h16 : t = "synchro_pendulum"
  · subst h16; simp [decodeCard, Json.getField, lookupField, map_ok_iff] at h
    obtain ⟨m, hm, rfl⟩ := h; rfl
  by_cases h17 : t = "xyz_pendulum"
  · subst h17; simp [decodeCard, Json.getField, lookupField, map_ok_iff] at h
    obtain ⟨m, hm, rfl⟩ := h; rfl
  rw [decodeCard_not_accepted t rest (by
    simp [acceptedFrameTypes, pendulumFrameTypes,
      h1, h2, h3, h4, h5, h6, h7, h8, h9, h10, h11, h12, h13, h14, h15, h16, h17])] at h
  exact absurd h (by simp)

theorem frameTagIndex_cases (t : String) (k : Nat)
    (e : frameTagIndex t = some k) :
    (k = 11 ∧ t ∈ pendulumFrameTypes) ∨ t = tagOfIndex k := by
  unfold frameTagIndex at e
  by_cases c1 : t = "normal"
  · rw [if_pos c1] at e; injection e with ek; subst ek; exact Or.inr (by rw [c1]; rfl)
  rw [if_neg c1] at e
  by_cases c2 : t = "effect"
  · rw [if_pos c2] at e; injection e with ek; subst ek; exact Or.inr (by rw [c2]; rfl)
  rw [if_neg c2] at e
  by_cases c3 : t = "ritual"
  · rw [if_pos c3] at e; injection e with ek; subst ek; exact Or.inr (by rw [c3]; rfl)
  rw [if_neg c3] at e
  by_cases c4 : t = "fusion"
  · rw [if_pos c4] at e; injection e with ek; subst ek; exact Or.inr (by rw [c4]; rfl)
  rw [if_neg c4] at e
  by_cases c5 : t = "synchro"
  · rw [if_pos c5] at e; injection e with ek; subst ek; exact Or.inr (by rw [c5]; rfl)
  rw [if_neg c5] at e
  by_cases c6 : t = "xyz"
  · rw [if_pos c6] at e; injection e with ek; subst ek; exact Or.inr (by rw [c6]; rfl)
  rw [if_neg c6] at e
  by_cases c7 : t = "link"
  · rw [if_pos c7] at e; injection e with ek; subst ek; exact Or.inr (by rw [c7]; rfl)
  rw [if_neg c7] at e
  by_cases c8 : t = "spell"
  · rw [if_pos c8] at e; injection e with ek; subst ek; exact Or.inr (by rw [c8]; rfl)
  rw [if_neg c8] at e
  by_cases c9 : t = "trap"
  · rw [if_pos c9] at e; injection e with ek; subst ek; exact Or.inr (by rw [c9]; rfl)
  rw [if_neg c9] at e
  by_cases c10 : t = "skill"
  · rw [if_pos c10] at e; injection e with ek; subst ek; exact Or.inr (by rw [c10]; rfl)
  rw [if_neg c10] at e
  by_cases c11 : t = "token"
  · rw [if_pos c11] at e; injection e with ek; subst ek; exact Or.inr (by rw [c11]; rfl)
  rw [if_neg c11] at e
  by_cases c12 : t = "normal_pendulum" ∨ t = "effect_pendulum" ∨
      t = "ritual_pendulum" ∨ t = "fusion_pendulum" ∨
      t = "synchro_pendulum" ∨ t = "xyz_pendulum"
  · rw [if_pos c12] at e; injection e with ek; subst ek
    refine Or.inl ⟨rfl, ?_⟩
    rcases c12 with h | h | h | h | h | h <;> subst h <;> decide
  · rw [if_neg c12] at e; exact Option.noConfusion e

theorem frameTagIndex_unique (t1 t2 : String) (k : Nat)
    (e1 : frameTagIndex t1 = some k) (e2 : frameTagIndex t2 = some k)
    (hne : t1 ≠ t2) :
    t1 ∈ pendulumFrameTypes ∧ t2 ∈ pendulumFrameTypes := by
  rcases frameTagIndex_cases t1 k e1 with ⟨hk, m1⟩ | ht1
  · rcases frameTagIndex_cases t2 k e2 with ⟨_, m2⟩ | ht2
    · exact ⟨m1, m2⟩
    · subst hk; rw [ht2] at e2
      exact absurd e2 (by decide)
  · rcases frameTagIndex_cases t2 k e2 with ⟨hk, m2⟩ | ht2
    · subst hk; rw [ht1] at e1
      exact absurd e1 (by decide)
    · exact absurd (ht1.trans ht2.symm) hne


/-- C1: for any payload, each of the six accepted pendulum discriminator
strings routes decoding to the `Pendulum` variant, all six decode
otherwise-identical payloads to the same `PendulumMonster` result, and no
two distinct accepted spellings outside the pendulum set select the same
variant. -/
theorem pendulum_alias_fan_in :
    (∀ (rest : List (String × Json)) (t : String), t ∈ pendulumFrameTypes →
      decodeCard (.obj (("frameType", .str t) :: rest)) =
        (decodePendulumMonster (.obj (("frameType", .str t) :: rest))).map .Pendulum ∧
      decodePendulumMonster (.obj (("frameType", .str t) :: rest)) =
        decodePendulumMonster (.obj (("frameType", .str "normal_pendulum") :: rest))) ∧
    (∀ (t : String) (rest : List (String × Json)) (c : Card),
      decodeCard (.obj (("frameType", .str t) :: rest)) = .ok c →
      frameTagIndex t = some c.ctorIdx) ∧
    (∀ (t1 t2 : String) (k : Nat), frameTagIndex t1 = some k →
      frameTagIndex t2 = some k → t1 ≠ t2 →
      t1 ∈ pendulumFrameTypes ∧ t2 ∈ pendulumFrameTypes) := by
  refine ⟨fun rest t ht => ⟨pendulum_route rest t ht, ?_⟩,
    decodeCard_tag_index, frameTagIndex_unique⟩
  rw [decodePendulumMonster_skip, decodePendulumMonster_skip]

/-- Witness for `pendulum_alias_fan_in` at concrete discriminators. -/
theorem pendulum_alias_fan_in_witness :
    (decodeCard (.obj [("frameType", .str "xyz_pendulum")]) =
      (decodePendulumMonster (.obj [("frameType", .str "xyz_pendulum")])).map .Pendulum) ∧
    ("normal_pendulum" ∈ pendulumFrameTypes ∧ "xyz_pendulum" ∈ pendulumFrameTypes) := by
  constructor
  · exact (pendulum_alias_fan_in.1 [] "xyz_pendulum" (by decide)).1
  · exact pendulum_alias_fan_in.2.2 "normal_pendulum" "xyz_pendulum" 11
      (by decide) (by decide) (by decide)

/-- C3: decoding a payload whose discriminator string is not one of the
accepted spellings fails with `unknownCardCategory` carrying that string,
and never succeeds with any variant. -/
theorem decode_unknown_category (tag : String) (rest : List (String × Json))
    (h : tag ∉ acceptedFrameTypes) :
    decodeCard (.obj (("frameType", .str tag) :: rest)) =
      .error (.unknownCardCategory tag) :=
  decodeCard_not_accepted tag rest h

/-- Witness for `decode_unknown_category` at a concrete unknown string. -/
theorem decode_unknown_category_witness :
    decodeCard (.obj [("frameType", .str "monster")]) =
      .error (.unknownCardCategory "monster") :=
  decode_unknown_category "monster" [] (by decide)

theorem ok_bind {α β : Type} (a : α) (f : α → Except DecodeError β) :
    (Except.ok a >>= f) = f a := rfl

theorem error_bind {α β : Type} (e : DecodeError) (f : α → Except DecodeError β) :
    ((Except.error e : Except DecodeError α) >>= f) = .error e := rfl

theorem getStr_ok (j : Json) (key variant s : String)
    (hf : j.getField key = some (.str s)) : getStr j key variant = .ok s := by
  simp [getStr, hf]

theorem getIntIn_ok (j : Json) (key variant : String) (lo hi n : Int)
    (hf : j.getField key = some (.num n)) (h : lo ≤ n ∧ n ≤ hi) :
    getIntIn j key variant lo hi = .ok n := by
  simp [getIntIn, hf, h]

theorem getU8_ok (j : Json) (key variant : String) (n : Nat)
    (hf : j.getField key = some (.num (n : Int))) (h : n ≤ 255) :
    getU8 j key variant = .ok n := by
  rw [getU8, getIntIn_ok j key variant 0 255 (n : Int) hf ⟨by omega, by omega⟩]
  rfl

theorem getU64_ok (j : Json) (key variant : String) (n : Nat)
    (hf : j.getField key = some (.num (n : Int))) (h : n ≤ u64Max) :
    getU64 j key variant = .ok n := by
  rw [getU64, getIntIn_ok j key variant 0 18446744073709551615 (n : Int) hf
    ⟨by omega, by unfold u64Max at h; omega⟩]
  rfl

theorem getI32_ok (j : Json) (key variant : String) (n : Int)
    (hf : j.getField key = some (.num n)) (h : i32Bounds n) :
    getI32 j key variant = .ok n :=
  getIntIn_ok j key variant _ _ n hf ⟨h.1, h.2⟩

theorem getEnum_ok {α : Type} (ofWire : String → Option α) (j : Json)
    (key variant s : String) (a : α)
    (hf : j.getField key = some (.str s)) (hw : ofWire s = some a) :
    getEnum ofWire j key variant = .ok a := by
  simp [getEnum, hf, hw]

theorem monsterRace_ofWire_serdeName (r : MonsterRace) :
    MonsterRace.ofWire r.serdeName = some r := by cases r <;> rfl

theorem attribute_ofWire_serdeName (a : Attribute) :
    Attribute.ofWire a.serdeName = some a := by cases a <;> rfl

theorem monsterType_ofWire_serdeName (t : MonsterType) :
    MonsterType.ofWire t.serdeName = some t := by cases t <;> rfl

theorem spellRace_ofWire_serdeName (r : SpellRace) :
    SpellRace.ofWire r.serdeName = some r := by cases r <;> rfl

theorem trapRace_ofWire_serdeName (r : TrapRace) :
    TrapRace.ofWire r.serdeName = some r := by cases r <;> rfl

theorem linkMarker_ofWire_serdeName (m : LinkMarker) :
    LinkMarker.ofWire m.serdeName = some m := by cases m <;> rfl

theorem decodeCardSet_serialize (s : CardSet) :
    decodeCardSet (serializeCardSet s) = .ok s := rfl

theorem decodeCardPrices_serialize (p : CardPrices) :
    decodeCardPrices (serializeCardPrices p) = .ok p := rfl

theorem decodeCardImage_serialize (i : CardImage) (h : i.id ≤ u64Max) :
    decodeCardImage (serializeCardImage i) = .ok i := by
  have h1 : getU64 (serializeCardImage i) "id" "CardImage" = .ok i.id :=
    getU64_ok _ _ _ _ rfl h
  rw [decodeCardImage, h1,
    getStr_ok (serializeCardImage i) "image_url" "CardImage" i.url rfl,
    getStr_ok (serializeCardImage i) "image_url_small" "CardImage" i.url_small rfl,
    getStr_ok (serializeCardImage i) "image_url_cropped" "CardImage" i.url_cropped rfl]
  rfl

theorem decodeList_sets (l : List CardSet) :
    decodeList decodeCardSet (l.map serializeCardSet) = .ok l := by
  induction l with
  | nil => rfl
  | cons s t ih =>
    rw [List.map_cons, decodeList, decodeCardSet_serialize, ih]
    rfl

theorem decodeList_prices (l : List CardPrices) :
    decodeList decodeCardPrices (l.map serializeCardPrices) = .ok l := by
  induction l with
  | nil => rfl
  | cons s t ih =>
    rw [List.map_cons, decodeList, decodeCardPrices_serialize, ih]
    rfl

theorem decodeList_images (l : List CardImage) (h : ∀ i ∈ l, i.id ≤ u64Max) :
    decodeList decodeCardImage (l.map serializeCardImage) = .ok l := by
  induction l with
  | nil => rfl
  | cons s t ih =>
    rw [List.map_cons, decodeList,
      decodeCardImage_serialize s (h s (List.mem_cons_self s t)),
      ih (fun i hi => h i (List.mem_cons_of_mem _ hi))]
    rfl

theorem decodeList_markers (l : List LinkMarker) :
    decodeList decodeLinkMarkerJson (l.map (fun x => .str x.serdeName)) = .ok l := by
  induction l with
  | nil => rfl
  | cons s t ih =>
    rw [List.map_cons, decodeList,
      show decodeLinkMarkerJson (.str s.serdeName) = .ok s by
        simp [decodeLinkMarkerJson, linkMarker_ofWire_serdeName],
      ih]
    rfl

theorem decodeCardInfo_fields (v : Json) (extra : List (String × Json))
    (i : CardInfo) (h : WFInfo i) :
    decodeCardInfo (.obj (("frameType", v) :: cardInfoFields i ++ extra)) =
      .ok i := by
  obtain ⟨hid, himg⟩ := h
  have h1 : getU64 (Json.obj (("frameType", v) :: cardInfoFields i ++ extra))
      "id" "CardInfo" = .ok i.id.val := getU64_ok _ _ _ _ rfl hid
  have h2 : getStr (Json.obj (("frameType", v) :: cardInfoFields i ++ extra))
      "name" "CardInfo" = .ok i.name := getStr_ok _ _ _ _ rfl
  have h3 : getStr (Json.obj (("frameType", v) :: cardInfoFields i ++ extra))
      "desc" "CardInfo" = .ok i.desc := getStr_ok _ _ _ _ rfl
  have h4 : getStr (Json.obj (("frameType", v) :: cardInfoFields i ++ extra))
      "humanReadableCardType" "CardInfo" = .ok i.human_readable_card_type :=
    getStr_ok _ _ _ _ rfl
  have h5 : getStr (Json.obj (("frameType", v) :: cardInfoFields i ++ extra))
      "ygoprodeck_url" "CardInfo" = .ok i.ygoprodeck_url := getStr_ok _ _ _ _ rfl
  have h6 : getSetsField (Json.obj (("frameType", v) :: cardInfoFields i ++ extra)) =
      .ok i.sets := by
    rw [getSetsField, show (Json.obj (("frameType", v) :: cardInfoFields i ++ extra)).getField
      "card_sets" = some (.arr (i.sets.map serializeCardSet)) from rfl]
    exact decodeList_sets i.sets
  have h7 : getImagesField (Json.obj (("frameType", v) :: cardInfoFields i ++ extra)) =
      .ok i.images := by
    rw [getImagesField, show (Json.obj (("frameType", v) :: cardInfoFields i ++ extra)).getField
      "card_images" = some (.arr (i.images.map serializeCardImage)) from rfl]
    exact decodeList_images _ himg
  have h8 : getPricesField (Json.obj (("frameType", v) :: cardInfoFields i ++ extra)) =
      .ok i.prices := by
    rw [getPricesField, show (Json.obj (("frameType", v) :: cardInfoFields i ++ extra)).getField
      "card_prices" = some (.arr (i.prices.map serializeCardPrices)) from rfl]
    exact decodeList_prices i.prices
  rw [decodeCardInfo, h1, h2, h3, h4, h5, h6, h7, h8]
  rfl

theorem decodeNormalMonster_serialize (m : NormalMonster) (hinfo : WFInfo m.info)
    (hlv : m.level ≤ 255) (hatk : i32Bounds m.atk) (hdef : i32Bounds m.def_) :
    decodeNormalMonster (serializeCard (.Normal m)) = .ok m := by
  have hi : decodeCardInfo (serializeCard (.Normal m)) = .ok m.info :=
    decodeCardInfo_fields (.str "normal") _ m.info hinfo
  have hr : getEnum MonsterRace.ofWire (serializeCard (.Normal m)) "race"
      "NormalMonster" = .ok m.race :=
    getEnum_ok MonsterRace.ofWire _ _ _ m.race.serdeName m.race rfl
      (monsterRace_ofWire_serdeName m.race)
  have ha : getEnum Attribute.ofWire (serializeCard (.Normal m)) "attribute"
      "NormalMonster" = .ok m.«attribute» :=
    getEnum_ok Attribute.ofWire _ _ _ m.«attribute».serdeName m.«attribute» rfl
      (attribute_ofWire_serdeName m.«attribute»)
  have hl : getU8 (serializeCard (.Normal m)) "level" "NormalMonster" =
      .ok m.level := getU8_ok _ _ _ _ rfl hlv
  have hk : getI32 (serializeCard (.Normal m)) "atk" "NormalMonster" =
      .ok m.atk := getI32_ok _ _ _ _ rfl hatk
  have hd : getI32 (serializeCard (.Normal m)) "def" "NormalMonster" =
      .ok m.def_ := getI32_ok _ _ _ _ rfl hdef
  have hc : getEnum MonsterType.ofWire (serializeCard (.Normal m)) "type"
      "NormalMonster" = .ok m.card_type :=
    getEnum_ok MonsterType.ofWire _ _ _ m.card_type.serdeName m.card_type rfl
      (monsterType_ofWire_serdeName m.card_type)
  rw [decodeNormalMonster, hi, hr, ha, hl, hk, hd, hc]
  rfl

theorem decodeEffectMonster_serialize (m : EffectMonster) (hinfo : WFInfo m.info)
    (hlv : m.level ≤ 255) (hatk : i32Bounds m.atk) (hdef : i32Bounds m.def_) :
    decodeEffectMonster (serializeCard (.Effect m)) = .ok m := by
  have hi : decodeCardInfo (serializeCard (.Effect m)) = .ok m.info :=
    decodeCardInfo_fields (.str "effect") _ m.info hinfo
  have hr : getEnum MonsterRace.ofWire (serializeCard (.Effect m)) "race"
      "EffectMonster" = .ok m.race :=
    getEnum_ok MonsterRace.ofWire _ _ _ m.race.serdeName m.race rfl
      (monsterRace_ofWire_serdeName m.race)
  have ha : getEnum Attribute.ofWire (serializeCard (.Effect m)) "attribute"
      "EffectMonster" = .ok m.«attribute» :=
    getEnum_ok Attribute.ofWire _ _ _ m.«attribute».serdeName m.«attribute» rfl
      (attribute_ofWire_serdeName m.«attribute»)
  have hl : getU8 (serializeCard (.Effect m)) "level" "EffectMonster" =
      .ok m.level := getU8_ok _ _ _ _ rfl hlv
  have hk : getI32 (serializeCard (.Effect m)) "atk" "EffectMonster" =
      .ok m.atk := getI32_ok _ _ _ _ rfl hatk
  have hd : getI32 (serializeCard (.Effect m)) "def" "EffectMonster" =
      .ok m.def_ := getI32_ok _ _ _ _ rfl hdef
  have hc : getEnum MonsterType.ofWire (serializeCard (.Effect m)) "type"
      "EffectMonster" = .ok m.card_type :=
    getEnum_ok MonsterType.ofWire _ _ _ m.card_type.serdeName m.card_type rfl
      (monsterType_ofWire_serdeName m.card_type)
  rw [decodeEffectMonster, hi, hr, ha, hl, hk, hd, hc]
  rfl

theorem decodeRitualMonster_serialize (m : RitualMonster) (hinfo : WFInfo m.info)
    (hlv : m.level ≤ 255) (hatk : i32Bounds m.atk) (hdef : i32Bounds m.def_) :
    decodeRitualMonster (serializeCard (.Ritual m)) = .ok m := by
  have hi : decodeCardInfo (serializeCard (.Ritual m)) = .ok m.info :=
    decodeCardInfo_fields (.str "ritual") _ m.info hinfo
  have hr : getEnum MonsterRace.ofWire (serializeCard (.Ritual m)) "race"
      "RitualMonster" = .ok m.race :=
    getEnum_ok MonsterRace.ofWire _ _ _ m.race.serdeName m.race rfl
      (monsterRace_ofWire_serdeName m.race)
  have ha : getEnum Attribute.ofWire (serializeCard (.Ritual m)) "attribute"
      "RitualMonster" = .ok m.«attribute» :=
    getEnum_ok Attribute.ofWire _ _ _ m.«attribute».serdeName m.«attribute» rfl
      (attribute_ofWire_serdeName m.«attribute»)
  have hl : getU8 (serializeCard (.Ritual m)) "level" "RitualMonster" =
      .ok m.level := getU8_ok _ _ _ _ rfl hlv
  have hk : getI32 (serializeCard (.Ritual m)) "atk" "RitualMonster" =
      .ok m.atk := getI32_ok _ _ _ _ rfl hatk
  have hd : getI32 (serializeCard (.Ritual m)) "def" "RitualMonster" =
      .ok m.def_ := getI32_ok _ _ _ _ rfl hdef
  have hc : getEnum MonsterType.ofWire (serializeCard (.Ritual m)) "type"
      "RitualMonster" = .ok m.card_type :=
    getEnum_ok MonsterType.ofWire _ _ _ m.card_type.serdeName m.card_type rfl
      (monsterType_ofWire_serdeName m.card_type)
  rw [decodeRitualMonster, hi, hr, ha, hl, hk, hd, hc]
  rfl

theorem decodeFusionMonster_serialize (m : FusionMonster) (hinfo : WFInfo m.info)
    (hlv : m.level ≤ 255) (hatk : i32Bounds m.atk) (hdef : i32Bounds m.def_) :
    decodeFusionMonster (serializeCard (.Fusion m)) = .ok m := by
  have hi : decodeCardInfo (serializeCard (.Fusion m)) = .ok m.info :=
    decodeCardInfo_fields (.str "fusion") _ m.info hinfo
  have hr : getEnum MonsterRace.ofWire (serializeCard (.Fusion m)) "race"
      "FusionMonster" = .ok m.race :=
    getEnum_ok MonsterRace.ofWire _ _ _ m.race.serdeName m.race rfl
      (monsterRace_ofWire_serdeName m.race)
  have ha : getEnum Attribute.ofWire (serializeCard (.Fusion m)) "attribute"
      "FusionMonster" = .ok m.«attribute» :=
    getEnum_ok Attribute.ofWire _ _ _ m.«attribute».serdeName m.«attribute» rfl
      (attribute_ofWire_serdeName m.«attribute»)
  have hl : getU8 (serializeCard (.Fusion m)) "level" "FusionMonster" =
      .ok m.level := getU8_ok _ _ _ _ rfl hlv
  have hk : getI32 (serializeCard (.Fusion m)) "atk" "FusionMonster" =
      .ok m.atk := getI32_ok _ _ _ _ rfl hatk
  have hd : getI32 (serializeCard (.Fusion m)) "def" "FusionMonster" =
      .ok m.def_ := getI32_ok _ _ _ _ rfl hdef
  have hc : getEnum MonsterType.ofWire (serializeCard (.Fusion m)) "type"
      "FusionMonster" = .ok m.card_type :=
    getEnum_ok MonsterType.ofWire _ _ _ m.card_type.serdeName m.card_type rfl
      (monsterType_ofWire_serdeName m.card_type)
  rw [decodeFusionMonster, hi, hr, ha, hl, hk, hd, hc]
  rfl

theorem decodeSynchroMonster_serialize (m : SynchroMonster) (hinfo : WFInfo m.info)
    (hlv : m.level ≤ 255) (hatk : i32Bounds m.atk) (hdef : i32Bounds m.def_) :
    decodeSynchroMonster (serializeCard (.Synchro m)) = .ok m := by
  have hi : decodeCardInfo (serializeCard (.Synchro m)) = .ok m.info :=
    decodeCardInfo_fields (.str "synchro") _ m.info hinfo
  have hr : getEnum MonsterRace.ofWire (serializeCard (.Synchro m)) "race"
      "SynchroMonster" = .ok m.race :=
    getEnum_ok MonsterRace.ofWire _ _ _ m.race.serdeName m.race rfl
      (monsterRace_ofWire_serdeName m.race)
  have ha : getEnum Attribute.ofWire (serializeCard (.Synchro m)) "attribute"
      "SynchroMonster" = .ok m.«attribute» :=
    getEnum_ok Attribute.ofWire _ _ _ m.«attribute».serdeName m.«attribute» rfl
      (attribute_ofWire_serdeName m.«attribute»)
  have hl : getU8 (serializeCard (.Synchro m)) "level" "SynchroMonster" =
      .ok m.level := getU8_ok _ _ _ _ rfl hlv
  have hk : getI32 (serializeCard (.Synchro m)) "atk" "SynchroMonster" =
      .ok m.atk := getI32_ok _ _ _ _ rfl hatk
  have hd : getI32 (serializeCard (.Synchro m)) "def" "SynchroMonster" =
      .ok m.def_ := getI32_ok _ _ _ _ rfl hdef
  have hc : getEnum MonsterType.ofWire (serializeCard (.Synchro m)) "type"
      "SynchroMonster" = .ok m.card_type :=
    getEnum_ok MonsterType.ofWire _ _ _ m.card_type.serdeName m.card_type rfl
      (monsterType_ofWire_serdeName m.card_type)
  rw [decodeSynchroMonster, hi, hr, ha, hl, hk, hd, hc]
  rfl

theorem decodeXyzMonster_serialize (m : XyzMonster) (hinfo : WFInfo m.info)
    (hlv : m.rank ≤ 255) (hatk : i32Bounds m.atk) (hdef : i32Bounds m.def_) :
    decodeXyzMonster (serializeCard (.Xyz m)) = .ok m := by
  have hi : decodeCardInfo (serializeCard (.Xyz m)) = .ok m.info :=
    decodeCardInfo_fields (.str "xyz") _ m.info hinfo
  have hr : getEnum MonsterRace.ofWire (serializeCard (.Xyz m)) "race"
      "XyzMonster" = .ok m.race :=
    getEnum_ok MonsterRace.ofWire _ _ _ m.race.serdeName m.race rfl
      (monsterRace_ofWire_serdeName m.race)
  have ha : getEnum Attribute.ofWire (serializeCard (.Xyz m)) "attribute"
      "XyzMonster" = .ok m.«attribute» :=
    getEnum_ok Attribute.ofWire _ _ _ m.«attribute».serdeName m.«attribute» rfl
      (attribute_ofWire_serdeName m.«attribute»)
  have hl : getU8 (serializeCard (.Xyz m)) "level" "XyzMonster" =
      .ok m.rank := getU8_ok _ _ _ _ rfl hlv
  have hk : getI32 (serializeCard (.Xyz m)) "atk" "XyzMonster" =
      .ok m.atk := getI32_ok _ _ _ _ rfl hatk
  have hd : getI32 (serializeCard (.Xyz m)) "def" "XyzMonster" =
      .ok m.def_ := getI32_ok _ _ _ _ rfl hdef
  have hc : getEnum MonsterType.ofWire (serializeCard (.Xyz m)) "type"
      "XyzMonster" = .ok m.card_type :=
    getEnum_ok MonsterType.ofWire _ _ _ m.card_type.serdeName m.card_type rfl
      (monsterType_ofWire_serdeName m.card_type)
  rw [decodeXyzMonster, hi, hr, ha, hl, hk, hd, hc]
  rfl

theorem decodePendulumMonster_serialize (m : PendulumMonster) (hinfo : WFInfo m.info)
    (hlv : m.level ≤ 255) (hsc : m.scale ≤ 255)
    (hatk : i32Bounds m.atk) (hdef : i32Bounds m.def_) :
    decodePendulumMonster (serializeCard (.Pendulum m)) = .ok m := by
  have hi : decodeCardInfo (serializeCard (.Pendulum m)) = .ok m.info :=
    decodeCardInfo_fields (.str "normal_pendulum") _ m.info hinfo
  have hr : getEnum MonsterRace.ofWire (serializeCard (.Pendulum m)) "race"
      "PendulumMonster" = .ok m.race :=
    getEnum_ok MonsterRace.ofWire _ _ _ m.race.serdeName m.race rfl
      (monsterRace_ofWire_serdeName m.race)
  have ha : getEnum Attribute.ofWire (serializeCard (.Pendulum m)) "attribute"
      "PendulumMonster" = .ok m.«attribute» :=
    getEnum_ok Attribute.ofWire _ _ _ m.«attribute».serdeName m.«attribute» rfl
      (attribute_ofWire_serdeName m.«attribute»)
  have hl : getU8 (serializeCard (.Pendulum m)) "level" "PendulumMonster" =
      .ok m.level := getU8_ok _ _ _ _ rfl hlv
  have hs : getU8 (serializeCard (.Pendulum m)) "scale" "PendulumMonster" =
      .ok m.scale := getU8_ok _ _ _ _ rfl hsc
  have hk : getI32 (serializeCard (.Pendulum m)) "atk" "PendulumMonster" =
      .ok m.atk := getI32_ok _ _ _ _ rfl hatk
  have hd : getI32 (serializeCard (.Pendulum m)) "def" "PendulumMonster" =
      .ok m.def_ := getI32_ok _ _ _ _ rfl hdef
  have hc : getEnum MonsterType.ofWire (serializeCard (.Pendulum m)) "type"
      "PendulumMonster" = .ok m.card_type :=
    getEnum_ok MonsterType.ofWire _ _ _ m.card_type.serdeName m.card_type rfl
      (monsterType_ofWire_serdeName m.card_type)
  rw [decodePendulumMonster, hi, hr, ha, hk, hd, hl, hc, hs]
  rfl

theorem decodeLinkMonster_serialize (m : LinkMonster) (hinfo : WFInfo m.info)
    (hlv : m.linkval ≤ 255) (hatk : i32Bounds m.atk) :
    decodeLinkMonster (serializeCard (.Link m)) = .ok m := by
  have hi : decodeCardInfo (serializeCard (.Link m)) = .ok m.info :=
    decodeCardInfo_fields (.str "link") _ m.info hinfo
  have hr : getEnum MonsterRace.ofWire (serializeCard (.Link m)) "race"
      "LinkMonster" = .ok m.race :=
    getEnum_ok MonsterRace.ofWire _ _ _ m.race.serdeName m.race rfl
      (monsterRace_ofWire_serdeName m.race)
  have ha : getEnum Attribute.ofWire (serializeCard (.Link m)) "attribute"
      "LinkMonster" = .ok m.«attribute» :=
    getEnum_ok Attribute.ofWire _ _ _ m.«attribute».serdeName m.«attribute» rfl
      (attribute_ofWire_serdeName m.«attribute»)
  have hl : getU8 (serializeCard (.Link m)) "linkval" "LinkMonster" =
      .ok m.linkval := getU8_ok _ _ _ _ rfl hlv
  have hk : getI32 (serializeCard (.Link m)) "atk" "LinkMonster" =
      .ok m.atk := getI32_ok _ _ _ _ rfl hatk
  have hc : getEnum MonsterType.ofWire (serializeCard (.Link m)) "type"
      "LinkMonster" = .ok m.card_type :=
    getEnum_ok MonsterType.ofWire _ _ _ m.card_type.serdeName m.card_type rfl
      (monsterType_ofWire_serdeName m.card_type)
  have hm : getLinkMarkersField (serializeCard (.Link m)) =
      .ok m.link_markers := by
    rw [getLinkMarkersField, show (serializeCard (.Link m)).getField "linkmarkers" =
      some (.arr (m.link_markers.map (fun x => .str x.serdeName))) from rfl]
    exact decodeList_markers m.link_markers
  rw [decodeLinkMonster, hi, hr, ha, hk, hl, hc, hm]
  rfl

theorem decodeSpellCard_serialize (c : SpellCard) (hinfo : WFInfo c.info) :
    decodeSpellCard (serializeCard (.Spell c)) = .ok c := by
  have hi : decodeCardInfo (serializeCard (.Spell c)) = .ok c.info :=
    decodeCardInfo_fields (.str "spell") _ c.info hinfo
  have hr : getEnum SpellRace.ofWire (serializeCard (.Spell c)) "race"
      "SpellCard" = .ok c.race :=
    getEnum_ok SpellRace.ofWire _ _ _ c.race.serdeName c.race rfl
      (spellRace_ofWire_serdeName c.race)
  rw [decodeSpellCard, hi, hr]
  rfl

theorem decodeTrapCard_serialize (c : TrapCard) (hinfo : WFInfo c.info) :
    decodeTrapCard (serializeCard (.Trap c)) = .ok c := by
  have hi : decodeCardInfo (serializeCard (.Trap c)) = .ok c.info :=
    decodeCardInfo_fields (.str "trap") _ c.info hinfo
  have hr : getEnum TrapRace.ofWire (serializeCard (.Trap c)) "race"
      "TrapCard" = .ok c.race :=
    getEnum_ok TrapRace.ofWire _ _ _ c.race.serdeName c.race rfl
      (trapRace_ofWire_serdeName c.race)
  rw [decodeTrapCard, hi, hr]
  rfl

theorem decode_serialize (c : Card) (h : WFCard c) :
    decodeCard (serializeCard c) = .ok c := by
  cases c with
  | Normal m =>
    obtain ⟨h1, h2, h3, h4⟩ := h
    show (decodeNormalMonster (serializeCard (.Normal m))).map Card.Normal =
      .ok (.Normal m)
    rw [decodeNormalMonster_serialize m h1 h2 h3 h4]; rfl
  | Effect m =>
    obtain ⟨h1, h2, h3, h4⟩ := h
    show (decodeEffectMonster (serializeCard (.Effect m))).map Card.Effect =
      .ok (.Effect m)
    rw [decodeEffectMonster_serialize m h1 h2 h3 h4]; rfl
  | Ritual m =>
    obtain ⟨h1, h2, h3, h4⟩ := h
    show (decodeRitualMonster (serializeCard (.Ritual m))).map Card.Ritual =
      .ok (.Ritual m)
    rw [decodeRitualMonster_serialize m h1 h2 h3 h4]; rfl
  | Fusion m =>
    obtain ⟨h1, h2, h3, h4⟩ := h
    show (decodeFusionMonster (serializeCard (.Fusion m))).map Card.Fusion =
      .ok (.Fusion m)
    rw [decodeFusionMonster_serialize m h1 h2 h3 h4]; rfl
  | Synchro m =>
    obtain ⟨h1, h2, h3, h4⟩ := h
    show (decodeSynchroMonster (serializeCard (.Synchro m))).map Card.Synchro =
      .ok (.Synchro m)
    rw [decodeSynchroMonster_serialize m h1 h2 h3 h4]; rfl
  | Xyz m =>
    obtain ⟨h1, h2, h3, h4⟩ := h
    show (decodeXyzMonster (serializeCard (.Xyz m))).map Card.Xyz =
      .ok (.Xyz m)
    rw [decodeXyzMonster_serialize m h1 h2 h3 h4]; rfl
  | Link m =>
    obtain ⟨h1, h2, h3⟩ := h
    show (decodeLinkMonster (serializeCard (.Link m))).map Card.Link =
      .ok (.Link m)
    rw [decodeLinkMonster_serialize m h1 h2 h3]; rfl
  | Spell c =>
    show (decodeSpellCard (serializeCard (.Spell c))).map Card.Spell =
      .ok (.Spell c)
    rw [decodeSpellCard_serialize c h]; rfl
  | Trap c =>
    show (decodeTrapCard (serializeCard (.Trap c))).map Card.Trap =
      .ok (.Trap c)
    rw [decodeTrapCard_serialize c h]; rfl
  | Skill => rfl
  | Token => rfl
  | Pendulum m =>
    obtain ⟨h1, h2, h3, h4, h5⟩ := h
    show (decodePendulumMonster (serializeCard (.Pendulum m))).map Card.Pendulum =
      .ok (.Pendulum m)
    rw [decodePendulumMonster_serialize m h1 h2 h3 h4 h5]; rfl

/-- C4: for every monster variant, a payload missing its required attack
field fails to decode with `missingField` naming the field and the variant,
while the same payload with the field present decodes successfully. -/
theorem missing_atk_fails_present_succeeds :
    (∀ m : NormalMonster, WFCard (.Normal m) →
      decodeCard (removeField (serializeCard (.Normal m)) "atk") =
        .error (.missingField "atk" "NormalMonster") ∧
      decodeCard (serializeCard (.Normal m)) = .ok (.Normal m)) ∧
    (∀ m : EffectMonster, WFCard (.Effect m) →
      decodeCard (removeField (serializeCard (.Effect m)) "atk") =
        .error (.missingField "atk" "EffectMonster") ∧
      decodeCard (serializeCard (.Effect m)) = .ok (.Effect m)) ∧
    (∀ m : RitualMonster, WFCard (.Ritual m) →
      decodeCard (removeField (serializeCard (.Ritual m)) "atk") =
        .error (.missingField "atk" "RitualMonster") ∧
      decodeCard (serializeCard (.Ritual m)) = .ok (.Ritual m)) ∧
    (∀ m : FusionMonster, WFCard (.Fusion m) →
      decodeCard (removeField (serializeCard (.Fusion m)) "atk") =
        .error (.missingField "atk" "FusionMonster") ∧
      decodeCard (serializeCard (.Fusion m)) = .ok (.Fusion m)) ∧
    (∀ m : SynchroMonster, WFCard (.Synchro m) →
      decodeCard (removeField (serializeCard (.Synchro m)) "atk") =
        .error (.missingField "atk" "SynchroMonster") ∧
      decodeCard (serializeCard (.Synchro m)) = .ok (.Synchro m)) ∧
    (∀ m : XyzMonster, WFCard (.Xyz m) →
      decodeCard (removeField (serializeCard (.Xyz m)) "atk") =
        .error (.missingField "atk" "XyzMonster") ∧
      decodeCard (serializeCard (.Xyz m)) = .ok (.Xyz m)) ∧
    (∀ m : LinkMonster, WFCard (.Link m) →
      decodeCard (removeField (serializeCard (.Link m)) "atk") =
        .error (.missingField "atk" "LinkMonster") ∧
      decodeCard (serializeCard (.Link m)) = .ok (.Link m)) ∧
    (∀ m : PendulumMonster, WFCard (.Pendulum m) →
      decodeCard (removeField (serializeCard (.Pendulum m)) "atk") =
        .error (.missingField "atk" "PendulumMonster") ∧
      decodeCard (serializeCard (.Pendulum m)) = .ok (.Pendulum m)) := by
  refine ⟨?_, ?_, ?_, ?_, ?_, ?_, ?_, ?_⟩
  · intro m h
    obtain ⟨hinfo, hlv, hatk, hdef⟩ := h
    refine ⟨?_, decode_serialize _ ⟨hinfo, hlv, hatk, hdef⟩⟩
    show (decodeNormalMonster (removeField (serializeCard (.Normal m)) "atk")).map
      Card.Normal = .error (.missingField "atk" "NormalMonster")
    have hshape : removeField (serializeCard (.Normal m)) "atk" =
        Json.obj (("frameType", .str "normal") :: cardInfoFields m.info ++
          [("race", .str m.race.serdeName), ("attribute", .str m.«attribute».serdeName), ("level", .num (m.level : Int)), ("def", .num m.def_), ("type", .str m.card_type.serdeName)]) := rfl
    rw [hshape]
    have hi : decodeCardInfo (Json.obj (("frameType", .str "normal") :: cardInfoFields m.info ++
        [("race", .str m.race.serdeName), ("attribute", .str m.«attribute».serdeName), ("level", .num (m.level : Int)), ("def", .num m.def_), ("type", .str m.card_type.serdeName)])) = .ok m.info := decodeCardInfo_fields _ _ _ hinfo
    have hr : getEnum MonsterRace.ofWire (Json.obj (("frameType", .str "normal") :: cardInfoFields m.info ++
        [("race", .str m.race.serdeName), ("attribute", .str m.«attribute».serdeName), ("level", .num (m.level : Int)), ("def", .num m.def_), ("type", .str m.card_type.serdeName)])) "race" "NormalMonster" = .ok m.race :=
      getEnum_ok MonsterRace.ofWire _ _ _ m.race.serdeName m.race rfl
        (monsterRace_ofWire_serdeName m.race)
    have ha : getEnum Attribute.ofWire (Json.obj (("frameType", .str "normal") :: cardInfoFields m.info ++
        [("race", .str m.race.serdeName), ("attribute", .str m.«attribute».serdeName), ("level", .num (m.level : Int)), ("def", .num m.def_), ("type", .str m.card_type.serdeName)])) "attribute" "NormalMonster" = .ok m.«attribute» :=
      getEnum_ok Attribute.ofWire _ _ _ m.«attribute».serdeName m.«attribute» rfl
        (attribute_ofWire_serdeName m.«attribute»)
    have hl : getU8 (Json.obj (("frameType", .str "normal") :: cardInfoFields m.info ++
        [("race", .str m.race.serdeName), ("attribute", .str m.«attribute».serdeName), ("level", .num (m.level : Int)), ("def", .num m.def_), ("type", .str m.card_type.serdeName)])) "level" "NormalMonster" = .ok m.level := getU8_ok _ _ _ _ rfl hlv
    rw [decodeNormalMonster, hi, hr, ha, hl]
    rfl
  · intro m h
    obtain ⟨hinfo, hlv, hatk, hdef⟩ := h
    refine ⟨?_, decode_serialize _ ⟨hinfo, hlv, hatk, hdef⟩⟩
    show (decodeEffectMonster (removeField (serializeCard (.Effect m)) "atk")).map
      Card.Effect = .error (.missingField "atk" "EffectMonster")
    have hshape : removeField (serializeCard (.Effect m)) "atk" =
        Json.obj (("frameType", .str "effect") :: cardInfoFields m.info ++
          [("race", .str m.race.serdeName), ("attribute", .str m.«attribute».serdeName), ("def", .num m.def_), ("level", .num (m.level : Int)), ("type", .str m.card_type.serdeName)]) := rfl
    rw [hshape]
    have hi : decodeCardInfo (Json.obj (("frameType", .str "effect") :: cardInfoFields m.info ++
        [("race", .str m.race.serdeName), ("attribute", .str m.«attribute».serdeName), ("def", .num m.def_), ("level", .num (m.level : Int)), ("type", .str m.card_type.serdeName)])) = .ok m.info := decodeCardInfo_fields _ _ _ hinfo
    have hr : getEnum MonsterRace.ofWire (Json.obj (("frameType", .str "effect") :: cardInfoFields m.info ++
        [("race", .str m.race.serdeName), ("attribute", .str m.«attribute».serdeName), ("def", .num m.def_), ("level", .num (m.level : Int)), ("type", .str m.card_type.serdeName)])) "race" "EffectMonster" = .ok m.race :=
      getEnum_ok MonsterRace.ofWire _ _ _ m.race.serdeName m.race rfl
        (monsterRace_ofWire_serdeName m.race)
    have ha : getEnum Attribute.ofWire (Json.obj (("frameType", .str "effect") :: cardInfoFields m.info ++
        [("race", .str m.race.serdeName), ("attribute", .str m.«attribute».serdeName), ("def", .num m.def_), ("level", .num (m.level : Int)), ("type", .str m.card_type.serdeName)])) "attribute" "EffectMonster" = .ok m.«attribute» :=
      getEnum_ok Attribute.ofWire _ _ _ m.«attribute».serdeName m.«attribute» rfl
        (attribute_ofWire_serdeName m.«attribute»)
    rw [decodeEffectMonster, hi, hr, ha]
    rfl
  · intro m h
    obtain ⟨hinfo, hlv, hatk, hdef⟩ := h
    refine ⟨?_, decode_serialize _ ⟨hinfo, hlv, hatk, hdef⟩⟩
    show (decodeRitualMonster (removeField (serializeCard (.Ritual m)) "atk")).map
      Card.Ritual = .error (.missingField "atk" "RitualMonster")
    have hshape : removeField (serializeCard (.Ritual m)) "atk" =
        Json.obj (("frameType", .str "ritual") :: cardInfoFields m.info ++
          [("race", .str m.race.serdeName), ("attribute", .str m.«attribute».serdeName), ("def", .num m.def_), ("level", .num (m.level : Int)), ("type", .str m.card_type.serdeName)]) := rfl
    rw [hshape]
    have hi : decodeCardInfo (Json.obj (("frameType", .str "ritual") :: cardInfoFields m.info ++
        [("race", .str m.race.serdeName), ("attribute", .str m.«attribute».serdeName), ("def", .num m.def_), ("level", .num (m.level : Int)), ("type", .str m.card_type.serdeName)])) = .ok m.info := decodeCardInfo_fields _ _ _ hinfo
    have hr : getEnum MonsterRace.ofWire (Json.obj (("frameType", .str "ritual") :: cardInfoFields m.info ++
        [("race", .str m.race.serdeName), ("attribute", .str m.«attribute».serdeName), ("def", .num m.def_), ("level", .num (m.level : Int)), ("type", .str m.card_type.serdeName)])) "race" "RitualMonster" = .ok m.race :=
      getEnum_ok MonsterRace.ofWire _ _ _ m.race.serdeName m.race rfl
        (monsterRace_ofWire_serdeName m.race)
    have ha : getEnum Attribute.ofWire (Json.obj (("frameType", .str "ritual") :: cardInfoFields m.info ++
        [("race", .str m.race.serdeName), ("attribute", .str m.«attribute».serdeName), ("def", .num m.def_), ("level", .num (m.level : Int)), ("type", .str m.card_type.serdeName)])) "attribute" "RitualMonster" = .ok m.«attribute» :=
      getEnum_ok Attribute.ofWire _ _ _ m.«attribute».serdeName m.«attribute» rfl
        (attribute_ofWire_serdeName m.«attribute»)
    rw [decodeRitualMonster, hi, hr, ha]
    rfl
  · intro m h
    obtain ⟨hinfo, hlv, hatk, hdef⟩ := h
    refine ⟨?_, decode_serialize _ ⟨hinfo, hlv, hatk, hdef⟩⟩
    show (decodeFusionMonster (removeField (serializeCard (.Fusion m)) "atk")).map
      Card.Fusion = .error (.missingField "atk" "FusionMonster")
    have hshape : removeField (serializeCard (.Fusion m)) "atk" =
        Json.obj (("frameType", .str "fusion") :: cardInfoFields m.info ++
          [("race", .str m.race.serdeName), ("attribute", .str m.«attribute».serdeName), ("def", .num m.def_), ("level", .num (m.level : Int)), ("type", .str m.card_type.serdeName)]) := rfl
    rw [hshape]
    have hi : decodeCardInfo (Json.obj (("frameType", .str "fusion") :: cardInfoFields m.info ++
        [("race", .str m.race.serdeName), ("attribute", .str m.«attribute».serdeName), ("def", .num m.def_), ("level", .num (m.level : Int)), ("type", .str m.card_type.serdeName)])) = .ok m.info := decodeCardInfo_fields _ _ _ hinfo
    have hr : getEnum MonsterRace.ofWire (Json.obj (("frameType", .str "fusion") :: cardInfoFields m.info ++
        [("race", .str m.race.serdeName), ("attribute", .str m.«attribute».serdeName), ("def", .num m.def_), ("level", .num (m.level : Int)), ("type", .str m.card_type.serdeName)])) "race" "FusionMonster" = .ok m.race :=
      getEnum_ok MonsterRace.ofWire _ _ _ m.race.serdeName m.race rfl
        (monsterRace_ofWire_serdeName m.race)
    have ha : getEnum Attribute.ofWire (Json.obj (("frameType", .str "fusion") :: cardInfoFields m.info ++
        [("race", .str m.race.serdeName), ("attribute", .str m.«attribute».serdeName), ("def", .num m.def_), ("level", .num (m.level : Int)), ("type", .str m.card_type.serdeName)])) "attribute" "FusionMonster" = .ok m.«attribute» :=
      getEnum_ok Attribute.ofWire _ _ _ m.«attribute».serdeName m.«attribute» rfl
        (attribute_ofWire_serdeName m.«attribute»)
    rw [decodeFusionMonster, hi, hr, ha]
    rfl
  · intro m h
    obtain ⟨hinfo, hlv, hatk, hdef⟩ := h
    refine ⟨?_, decode_serialize _ ⟨hinfo, hlv, hatk, hdef⟩⟩
    show (decodeSynchroMonster (removeField (serializeCard (.Synchro m)) "atk")).map
      Card.Synchro = .error (.missingField "atk" "SynchroMonster")
    have hshape : removeField (serializeCard (.Synchro m)) "atk" =
        Json.obj (("frameType", .str "synchro") :: cardInfoFields m.info ++
          [("race", .str m.race.serdeName), ("attribute", .str m.«attribute».serdeName), ("def", .num m.def_), ("level", .num (m.level : Int)), ("type", .str m.card_type.serdeName)]) := rfl
    rw [hshape]
    have hi : decodeCardInfo (Json.obj (("frameType", .str "synchro") :: cardInfoFields m.info ++
        [("race", .str m.race.serdeName), ("attribute", .str m.«attribute».serdeName), ("def", .num m.def_), ("level", .num (m.level : Int)), ("type", .str m.card_type.serdeName)])) = .ok m.info := decodeCardInfo_fields _ _ _ hinfo
    have hr : getEnum MonsterRace.ofWire (Json.obj (("frameType", .str "synchro") :: cardInfoFields m.info ++
        [("race", .str m.race.serdeName), ("attribute", .str m.«attribute».serdeName), ("def", .num m.def_), ("level", .num (m.level : Int)), ("type", .str m.card_type.serdeName)])) "race" "SynchroMonster" = .ok m.race :=
      getEnum_ok MonsterRace.ofWire _ _ _ m.race.serdeName m.race rfl
        (monsterRace_ofWire_serdeName m.race)
    have ha : getEnum Attribute.ofWire (Json.obj (("frameType", .str "synchro") :: cardInfoFields m.info ++
        [("race", .str m.race.serdeName), ("attribute", .str m.«attribute».serdeName), ("def", .num m.def_), ("level", .num (m.level : Int)), ("type", .str m.card_type.serdeName)])) "attribute" "SynchroMonster" = .ok m.«attribute» :=
      getEnum_ok Attribute.ofWire _ _ _ m.«attribute».serdeName m.«attribute» rfl
        (attribute_ofWire_serdeName m.«attribute»)
    rw [decodeSynchroMonster, hi, hr, ha]
    rfl
  · intro m h
    obtain ⟨hinfo, hlv, hatk, hdef⟩ := h
    refine ⟨?_, decode_serialize _ ⟨hinfo, hlv, hatk, hdef⟩⟩
    show (decodeXyzMonster (removeField (serializeCard (.Xyz m)) "atk")).map
      Card.Xyz = .error (.missingField "atk" "XyzMonster")
    have hshape : removeField (serializeCard (.Xyz m)) "atk" =
        Json.obj (("frameType", .str "xyz") :: cardInfoFields m.info ++
          [("race", .str m.race.serdeName), ("attribute", .str m.«attribute».serdeName), ("def", .num m.def_), ("level", .num (m.rank : Int)), ("type", .str m.card_type.serdeName)]) := rfl
    rw [hshape]
    have hi : decodeCardInfo (Json.obj (("frameType", .str "xyz") :: cardInfoFields m.info ++
        [("race", .str m.race.serdeName), ("attribute", .str m.«attribute».serdeName), ("def", .num m.def_), ("level", .num (m.rank : Int)), ("type", .str m.card_type.serdeName)])) = .ok m.info := decodeCardInfo_fields _ _ _ hinfo
    have hr : getEnum MonsterRace.ofWire (Json.obj (("frameType", .str "xyz") :: cardInfoFields m.info ++
        [("race", .str m.race.serdeName), ("attribute", .str m.«attribute».serdeName), ("def", .num m.def_), ("level", .num (m.rank : Int)), ("type", .str m.card_type.serdeName)])) "race" "XyzMonster" = .ok m.race :=
      getEnum_ok MonsterRace.ofWire _ _ _ m.race.serdeName m.race rfl
        (monsterRace_ofWire_serdeName m.race)
    have ha : getEnum Attribute.ofWire (Json.obj (("frameType", .str "xyz") :: cardInfoFields m.info ++
        [("race", .str m.race.serdeName), ("attribute", .str m.«attribute».serdeName), ("def", .num m.def_), ("level", .num (m.rank : Int)), ("type", .str m.card_type.serdeName)])) "attribute" "XyzMonster" = .ok m.«attribute» :=
      getEnum_ok Attribute.ofWire _ _ _ m.«attribute».serdeName m.«attribute» rfl
        (attribute_ofWire_serdeName m.«attribute»)
    rw [decodeXyzMonster, hi, hr, ha]
    rfl
  · intro m h
    obtain ⟨hinfo, hlv, hatk⟩ := h
    refine ⟨?_, decode_serialize _ ⟨hinfo, hlv, hatk⟩⟩
    show (decodeLinkMonster (removeField (serializeCard (.Link m)) "atk")).map
      Card.Link = .error (.missingField "atk" "LinkMonster")
    have hshape : removeField (serializeCard (.Link m)) "atk" =
        Json.obj (("frameType", .str "link") :: cardInfoFields m.info ++
          [("race", .str m.race.serdeName), ("attribute", .str m.«attribute».serdeName), ("linkval", .num (m.linkval : Int)), ("type", .str m.card_type.serdeName), ("linkmarkers", .arr (m.link_markers.map (fun x => .str x.serdeName)))]) := rfl
    rw [hshape]
    have hi : decodeCardInfo (Json.obj (("frameType", .str "link") :: cardInfoFields m.info ++
        [("race", .str m.race.serdeName), ("attribute", .str m.«attribute».serdeName), ("linkval", .num (m.linkval : Int)), ("type", .str m.card_type.serdeName), ("linkmarkers", .arr (m.link_markers.map (fun x => .str x.serdeName)))])) = .ok m.info := decodeCardInfo_fields _ _ _ hinfo
    have hr : getEnum MonsterRace.ofWire (Json.obj (("frameType", .str "link") :: cardInfoFields m.info ++
        [("race", .str m.race.serdeName), ("attribute", .str m.«attribute».serdeName), ("linkval", .num (m.linkval : Int)), ("type", .str m.card_type.serdeName), ("linkmarkers", .arr (m.link_markers.map (fun x => .str x.serdeName)))])) "race" "LinkMonster" = .ok m.race :=
      getEnum_ok MonsterRace.ofWire _ _ _ m.race.serdeName m.race rfl
        (monsterRace_ofWire_serdeName m.race)
    have ha : getEnum Attribute.ofWire (Json.obj (("frameType", .str "link") :: cardInfoFields m.info ++
        [("race", .str m.race.serdeName), ("attribute", .str m.«attribute».serdeName), ("linkval", .num (m.linkval : Int)), ("type", .str m.card_type.serdeName), ("linkmarkers", .arr (m.link_markers.map (fun x => .str x.serdeName)))])) "attribute" "LinkMonster" = .ok m.«attribute» :=
      getEnum_ok Attribute.ofWire _ _ _ m.«attribute».serdeName m.«attribute» rfl
        (attribute_ofWire_serdeName m.«attribute»)
    rw [decodeLinkMonster, hi, hr, ha]
    rfl
  · intro m h
    obtain ⟨hinfo, hlv, hsc, hatk, hdef⟩ := h
    refine ⟨?_, decode_serialize _ ⟨hinfo, hlv, hsc, hatk, hdef⟩⟩
    show (decodePendulumMonster (removeField (serializeCard (.Pendulum m)) "atk")).map
      Card.Pendulum = .error (.missingField "atk" "PendulumMonster")
    have hshape : removeField (serializeCard (.Pendulum m)) "atk" =
        Json.obj (("frameType", .str "normal_pendulum") :: cardInfoFields m.info ++
          [("race", .str m.race.serdeName), ("attribute", .str m.«attribute».serdeName), ("def", .num m.def_), ("level", .num (m.level : Int)), ("type", .str m.card_type.serdeName), ("scale", .num (m.scale : Int))]) := rfl
    rw [hshape]
    have hi : decodeCardInfo (Json.obj (("frameType", .str "normal_pendulum") :: cardInfoFields m.info ++
        [("race", .str m.race.serdeName), ("attribute", .str m.«attribute».serdeName), ("def", .num m.def_), ("level", .num (m.level : Int)), ("type", .str m.card_type.serdeName), ("scale", .num (m.scale : Int))])) = .ok m.info := decodeCardInfo_fields _ _ _ hinfo
    have hr : getEnum MonsterRace.ofWire (Json.obj (("frameType", .str "normal_pendulum") :: cardInfoFields m.info ++
        [("race", .str m.race.serdeName), ("attribute", .str m.«attribute».serdeName), ("def", .num m.def_), ("level", .num (m.level : Int)), ("type", .str m.card_type.serdeName), ("scale", .num (m.scale : Int))])) "race" "PendulumMonster" = .ok m.race :=
      getEnum_ok MonsterRace.ofWire _ _ _ m.race.serdeName m.race rfl
        (monsterRace_ofWire_serdeName m.race)
    have ha : getEnum Attribute.ofWire (Json.obj (("frameType", .str "normal_pendulum") :: cardInfoFields m.info ++
        [("race", .str m.race.serdeName), ("attribute", .str m.«attribute».serdeName), ("def", .num m.def_), ("level", .num (m.level : Int)), ("type", .str m.card_type.serdeName), ("scale", .num (m.scale : Int))])) "attribute" "PendulumMonster" = .ok m.«attribute» :=
      getEnum_ok Attribute.ofWire _ _ _ m.«attribute».serdeName m.«attribute» rfl
        (attribute_ofWire_serdeName m.«attribute»)
    rw [decodePendulumMonster, hi, hr, ha]
    rfl

/-- Witness for `missing_atk_fails_present_succeeds` at the concrete card
`Trent`. -/
theorem missing_atk_fails_present_succeeds_witness :
    decodeCard (removeField (serializeCard (.Normal trentCard)) "atk") =
      .error (.missingField "atk" "NormalMonster") ∧
    decodeCard (serializeCard (.Normal trentCard)) = .ok (.Normal trentCard) :=
  missing_atk_fails_present_succeeds.1 trentCard (by decide)


theorem bind_ok_iff {α β : Type} {e : Except DecodeError α}
    {f : α → Except DecodeError β} {b : β} :
    (e >>= f) = .ok b ↔ ∃ a, e = .ok a ∧ f a = .ok b := by
  cases e with
  | error err => simp [error_bind]
  | ok a => simp [ok_bind]

theorem getIntIn_bounds {j : Json} {key variant : String} {lo hi n : Int}
    (h : getIntIn j key variant lo hi = .ok n) : lo ≤ n ∧ n ≤ hi := by
  unfold getIntIn at h
  split at h
  · exact Except.noConfusion h
  · split at h
    · rename_i hcond
      injection h with hn
      subst hn
      exact hcond
    · exact Except.noConfusion h
  · exact Except.noConfusion h

theorem getU8_le {j : Json} {key variant : String} {n : Nat}
    (h : getU8 j key variant = .ok n) : n ≤ 255 := by
  rw [getU8] at h
  cases e : getIntIn j key variant 0 255 with
  | error err => rw [e] at h; exact Except.noConfusion h
  | ok i =>
    rw [e] at h
    injection h with hn
    obtain ⟨hl, hh⟩ := getIntIn_bounds e
    omega

theorem getU64_le {j : Json} {key variant : String} {n : Nat}
    (h : getU64 j key variant = .ok n) : n ≤ u64Max := by
  rw [getU64] at h
  cases e : getIntIn j key variant 0 18446744073709551615 with
  | error err => rw [e] at h; exact Except.noConfusion h
  | ok i =>
    rw [e] at h
    injection h with hn
    obtain ⟨hl, hh⟩ := getIntIn_bounds e
    unfold u64Max
    omega

theorem getI32_bounds {j : Json} {key variant : String} {n : Int}
    (h : getI32 j key variant = .ok n) : i32Bounds n := by
  rw [getI32] at h
  exact getIntIn_bounds h

theorem decodeList_mem {α : Type} {d : Json → Except DecodeError α} :
    ∀ {xs : List Json} {l : List α}, decodeList d xs = .ok l →
      ∀ a ∈ l, ∃ x, d x = .ok a := by
  intro xs
  induction xs with
  | nil =>
    intro l h a ha
    rw [decodeList] at h
    injection h with hl
    subst hl
    simp at ha
  | cons x xs ih =>
    intro l h a ha
    rw [decodeList] at h
    cases e1 : d x with
    | error err => rw [e1, error_bind] at h; exact Except.noConfusion h
    | ok b =>
      rw [e1, ok_bind] at h
      cases e2 : decodeList d xs with
      | error err => rw [e2, error_bind] at h; exact Except.noConfusion h
      | ok bs =>
        rw [e2, ok_bind] at h
        injection h with hl
        subst hl
        rcases List.mem_cons.mp ha with rfl | hmem
        · exact ⟨x, e1⟩
        · exact ih e2 a hmem

theorem decodeCardImage_id_le {j : Json} {img : CardImage}
    (h : decodeCardImage j = .ok img) : img.id ≤ u64Max := by
  rw [decodeCardImage] at h
  simp only [bind_ok_iff] at h
  obtain ⟨n, hn, u, hu, us, hus, uc, huc, hok⟩ := h
  injection hok with hok
  subst hok
  exact getU64_le hn

theorem getImagesField_mem {j : Json} {l : List CardImage}
    (h : getImagesField j = .ok l) : ∀ a ∈ l, a.id ≤ u64Max := by
  intro a ha
  unfold getImagesField at h
  split at h
  · exact Except.noConfusion h
  · obtain ⟨x, hx⟩ := decodeList_mem h a ha
    exact decodeCardImage_id_le hx
  · exact Except.noConfusion h

theorem decodeCardInfo_WF {j : Json} {i : CardInfo}
    (h : decodeCardInfo j = .ok i) : WFInfo i := by
  rw [decodeCardInfo] at h
  simp only [bind_ok_iff] at h
  obtain ⟨idv, hid, name, hname, desc, hdesc, hr, hhr, url, hurl, sets, hsets,
    images, himgs, prices, hprices, hok⟩ := h
  injection hok with hok
  subst hok
  exact ⟨getU64_le hid, getImagesField_mem himgs⟩


theorem decodeNormalMonster_WF {j : Json} {m : NormalMonster}
    (h : decodeNormalMonster j = .ok m) : WFCard (.Normal m) := by
  rw [decodeNormalMonster] at h
  simp only [bind_ok_iff] at h
  obtain ⟨info, hinfo, race, hrace, attr, hattr, level, hlevel, atk, hatk,
    d, hd, ct, hct, hok⟩ := h
  injection hok with hok
  subst hok
  exact ⟨decodeCardInfo_WF hinfo, getU8_le hlevel, getI32_bounds hatk,
    getI32_bounds hd⟩

theorem decodeEffectMonster_WF {j : Json} {m : EffectMonster}
    (h : decodeEffectMonster j = .ok m) : WFCard (.Effect m) := by
  rw [decodeEffectMonster] at h
  simp only [bind_ok_iff] at h
  obtain ⟨info, hinfo, race, hrace, attr, hattr, atk, hatk, d, hd,
    level, hlevel, ct, hct, hok⟩ := h
  injection hok with hok
  subst hok
  exact ⟨decodeCardInfo_WF hinfo, getU8_le hlevel, getI32_bounds hatk,
    getI32_bounds hd⟩

theorem decodeRitualMonster_WF {j : Json} {m : RitualMonster}
    (h : decodeRitualMonster j = .ok m) : WFCard (.Ritual m) := by
  rw [decodeRitualMonster] at h
  simp only [bind_ok_iff] at h
  obtain ⟨info, hinfo, race, hrace, attr, hattr, atk, hatk, d, hd,
    level, hlevel, ct, hct, hok⟩ := h
  injection hok with hok
  subst hok
  exact ⟨decodeCardInfo_WF hinfo, getU8_le hlevel, getI32_bounds hatk,
    getI32_bounds hd⟩

theorem decodeFusionMonster_WF {j : Json} {m : FusionMonster}
    (h : decodeFusionMonster j = .ok m) : WFCard (.Fusion m) := by
  rw [decodeFusionMonster] at h
  simp only [bind_ok_iff] at h
  obtain ⟨info, hinfo, race, hrace, attr, hattr, atk, hatk, d, hd,
    level, hlevel, ct, hct, hok⟩ := h
  injection hok with hok
  subst hok
  exact ⟨decodeCardInfo_WF hinfo, getU8_le hlevel, getI32_bounds hatk,
    getI32_bounds hd⟩

theorem decodeSynchroMonster_WF {j : Json} {m : SynchroMonster}
    (h : decodeSynchroMonster j = .ok m) : WFCard (.Synchro m) := by
  rw [decodeSynchroMonster] at h
  simp only [bind_ok_iff] at h
  obtain ⟨info, hinfo, race, hrace, attr, hattr, atk, hatk, d, hd,
    level, hlevel, ct, hct, hok⟩ := h
  injection hok with hok
  subst hok
  exact ⟨decodeCardInfo_WF hinfo, getU8_le hlevel, getI32_bounds hatk,
    getI32_bounds hd⟩

theorem decodeXyzMonster_WF {j : Json} {m : XyzMonster}
    (h : decodeXyzMonster j = .ok m) : WFCard (.Xyz m) := by
  rw [decodeXyzMonster] at h
  simp only [bind_ok_iff] at h
  obtain ⟨info, hinfo, race, hrace, attr, hattr, atk, hatk, d, hd,
    rank, hrank, ct, hct, hok⟩ := h
  injection hok with hok
  subst hok
  exact ⟨decodeCardInfo_WF hinfo, getU8_le hrank, getI32_bounds hatk,
    getI32_bounds hd⟩

theorem decodePendulumMonster_WF {j : Json} {m : PendulumMonster}
    (h : decodePendulumMonster j = .ok m) : WFCard (.Pendulum m) := by
  rw [decodePendulumMonster] at h
  simp only [bind_ok_iff] at h
  obtain ⟨info, hinfo, race, hrace, attr, hattr, atk, hatk, d, hd,
    level, hlevel, ct, hct, scale, hscale, hok⟩ := h
  injection hok with hok
  subst hok
  exact ⟨decodeCardInfo_WF hinfo, getU8_le hlevel, getU8_le hscale,
    getI32_bounds hatk, getI32_bounds hd⟩

theorem decodeLinkMonster_WF {j : Json} {m : LinkMonster}
    (h : decodeLinkMonster j = .ok m) : WFCard (.Link m) := by
  rw [decodeLinkMonster] at h
  simp only [bind_ok_iff] at h
  obtain ⟨info, hinfo, race, hrace, attr, hattr, atk, hatk, lv, hlv,
    ct, hct, mk, hmk, hok⟩ := h
  injection hok with hok
  subst hok
  exact ⟨decodeCardInfo_WF hinfo, getU8_le hlv, getI32_bounds hatk⟩

theorem decodeSpellCard_WF {j : Json} {c : SpellCard}
    (h : decodeSpellCard j = .ok c) : WFCard (.Spell c) := by
  rw [decodeSpellCard] at h
  simp only [bind_ok_iff] at h
  obtain ⟨info, hinfo, race, hrace, hok⟩ := h
  injection hok with hok
  subst hok
  exact decodeCardInfo_WF hinfo

theorem decodeTrapCard_WF {j : Json} {c : TrapCard}
    (h : decodeTrapCard j = .ok c) : WFCard (.Trap c) := by
  rw [decodeTrapCard] at h
  simp only [bind_ok_iff] at h
  obtain ⟨info, hinfo, race, hrace, hok⟩ := h
  injection hok with hok
  subst hok
  exact decodeCardInfo_WF hinfo

theorem decodeCard_WF {j : Json} {c : Card}
    (h : decodeCard j = .ok c) : WFCard c := by
  rw [decodeCard] at h
  split at h
  · exact Except.noConfusion h
  · rename_i tag hfeq
    by_cases h1 : tag = "normal"
    · rw [if_pos h1, map_ok_iff] at h
      obtain ⟨m, hm, rfl⟩ := h
      exact decodeNormalMonster_WF hm
    rw [if_neg h1] at h
    by_cases h2 : tag = "effect"
    · rw [if_pos h2, map_ok_iff] at h
      obtain ⟨m, hm, rfl⟩ := h
      exact decodeEffectMonster_WF hm
    rw [if_neg h2] at h
    by_cases h3 : tag = "ritual"
    · rw [if_pos h3, map_ok_iff] at h
      obtain ⟨m, hm, rfl⟩ := h
      exact decodeRitualMonster_WF hm
    rw [if_neg h3] at h
    by_cases h4 : tag = "fusion"
    · rw [if_pos h4, map_ok_iff] at h
      obtain ⟨m, hm, rfl⟩ := h
      exact decodeFusionMonster_WF hm
    rw [if_neg h4] at h
    by_cases h5 : tag = "synchro"
    · rw [if_pos h5, map_ok_iff] at h
      obtain ⟨m, hm, rfl⟩ := h
      exact decodeSynchroMonster_WF hm
    rw [if_neg h5] at h
    by_cases h6 : tag = "xyz"
    · rw [if_pos h6, map_ok_iff] at h
      obtain ⟨m, hm, rfl⟩ := h
      exact decodeXyzMonster_WF hm
    rw [if_neg h6] at h
    by_cases h7 : tag = "link"
    · rw [if_pos h7, map_ok_iff] at h
      obtain ⟨m, hm, rfl⟩ := h
      exact decodeLinkMonster_WF hm
    rw [if_neg h7] at h
    by_cases h8 : tag = "spell"
    · rw [if_pos h8, map_ok_iff] at h
      obtain ⟨m, hm, rfl⟩ := h
      exact decodeSpellCard_WF hm
    rw [if_neg h8] at h
    by_cases h9 : tag = "trap"
    · rw [if_pos h9, map_ok_iff] at h
      obtain ⟨m, hm, rfl⟩ := h
      exact decodeTrapCard_WF hm
    rw [if_neg h9] at h
    by_cases h10 : tag = "skill"
    · rw [if_pos h10] at h
      injection h with hc
      subst hc
      trivial
    rw [if_neg h10] at h
    by_cases h11 : tag = "token"
    · rw [if_pos h11] at h
      injection h with hc
      subst hc
      trivial
    rw [if_neg h11] at h
    by_cases h12 : tag = "normal_pendulum" ∨ tag = "effect_pendulum" ∨
        tag = "ritual_pendulum" ∨ tag = "fusion_pendulum" ∨
        tag = "synchro_pendulum" ∨ tag = "xyz_pendulum"
    · rw [if_pos h12, map_ok_iff] at h
      obtain ⟨m, hm, rfl⟩ := h
      exact decodePendulumMonster_WF hm
    · rw [if_neg h12] at h
      exact Except.noConfusion h
  · exact Except.noConfusion h


/-- C2 counterexample: the payload tagged with the alias `effect_pendulum`
decodes successfully, but re-encoding the decoded card emits the canonical
`normal_pendulum` discriminator, so the original string value of the
`frameType` field is not reproduced. -/
theorem card_roundtrip_counterexample :
    decodeCard pendulumAliasPayload = .ok (.Pendulum pendulumAliasCard) ∧
    pendulumAliasPayload.getStrField "frameType" = some "effect_pendulum" ∧
    (serializeCard (.Pendulum pendulumAliasCard)).getStrField "frameType" =
      some "normal_pendulum" ∧
    (serializeCard (.Pendulum pendulumAliasCard)).getStrField "frameType" ≠
      pendulumAliasPayload.getStrField "frameType" :=
  ⟨by decide, rfl, rfl, by decide⟩

/-- C2 amended: every constructible (machine-integer well-formed) card
serializes and decodes back to an equal value field-for-field; every decoded
card is constructible; hence re-encoding a decoded card decodes back to the
same card — though, as the counterexample shows, re-encoding may rewrite an
aliased discriminator to the canonical spelling. -/
theorem card_roundtrip_amended :
    (∀ c : Card, WFCard c → decodeCard (serializeCard c) = .ok c) ∧
    (∀ (j : Json) (c : Card), decodeCard j = .ok c → WFCard c) ∧
    (∀ (j : Json) (c : Card), decodeCard j = .ok c →
      decodeCard (serializeCard c) = .ok c) :=
  ⟨decode_serialize, fun _ _ h => decodeCard_WF h,
    fun _ c h => decode_serialize c (decodeCard_WF h)⟩

/-- Witness for `card_roundtrip_amended` at concrete inputs. -/
theorem card_roundtrip_amended_witness :
    decodeCard (serializeCard (.Normal trentCard)) = .ok (.Normal trentCard) ∧
    decodeCard (serializeCard (.Pendulum pendulumAliasCard)) =
      .ok (.Pendulum pendulumAliasCard) := by
  constructor
  · exact card_roundtrip_amended.1 (.Normal trentCard) (by decide)
  · exact card_roundtrip_amended.2.2 pendulumAliasPayload
      (.Pendulum pendulumAliasCard) (by decide)

/-- C8 counterexample: the `Skill` and `Token` variants carry no shared
metadata at all — their serialized form is a bare discriminator object with
no id or name key. -/
theorem cardinfo_embedding_counterexample :
    serializeCard Card.Skill = .obj [("frameType", .str "skill")] ∧
    (serializeCard Card.Skill).getField "name" = none ∧
    (serializeCard Card.Skill).getField "id" = none ∧
    (serializeCard Card.Token).getField "id" = none ∧
    Card.infoOf .Skill = none ∧ Card.infoOf .Token = none :=
  ⟨rfl, rfl, rfl, rfl, rfl, rfl⟩

/-- C8 amended: every card variant except `Skill` and `Token` carries the
shared metadata, and for those variants the metadata fields appear at the
top level of the serialized object, never nested under an `info` key. -/
theorem cardinfo_embedding_amended :
    (∀ c : Card, c.infoOf = none ↔ (c = .Skill ∨ c = .Token)) ∧
    (∀ (c : Card) (i : CardInfo), c.infoOf = some i →
      (serializeCard c).getField "id" = some (.num (i.id.val : Int)) ∧
      (serializeCard c).getField "name" = some (.str i.name) ∧
      (serializeCard c).getField "desc" = some (.str i.desc) ∧
      (serializeCard c).getField "humanReadableCardType" =
        some (.str i.human_readable_card_type) ∧
      (serializeCard c).getField "ygoprodeck_url" =
        some (.str i.ygoprodeck_url) ∧
      (serializeCard c).getField "card_sets" =
        some (.arr (i.sets.map serializeCardSet)) ∧
      (serializeCard c).getField "card_images" =
        some (.arr (i.images.map serializeCardImage)) ∧
      (serializeCard c).getField "card_prices" =
        some (.arr (i.prices.map serializeCardPrices)) ∧
      (serializeCard c).getField "info" = none) := by
  constructor
  · intro c
    cases c <;> simp [Card.infoOf]
  · intro c i h
    cases c with
    | Skill => exact absurd h (by simp [Card.infoOf])
    | Token => exact absurd h (by simp [Card.infoOf])
    | Normal m =>
      simp only [Card.infoOf, Option.some.injEq] at h
      subst h
      exact ⟨rfl, rfl, rfl, rfl, rfl, rfl, rfl, rfl, rfl⟩
    | Effect m =>
      simp only [Card.infoOf, Option.some.injEq] at h
      subst h
      exact ⟨rfl, rfl, rfl, rfl, rfl, rfl, rfl, rfl, rfl⟩
    | Ritual m =>
      simp only [Card.infoOf, Option.some.injEq] at h
      subst h
      exact ⟨rfl, rfl, rfl, rfl, rfl, rfl, rfl, rfl, rfl⟩
    | Fusion m =>
      simp only [Card.infoOf, Option.some.injEq] at h
      subst h
      exact ⟨rfl, rfl, rfl, rfl, rfl, rfl, rfl, rfl, rfl⟩
    | Synchro m =>
      simp only [Card.infoOf, Option.some.injEq] at h
      subst h
      exact ⟨rfl, rfl, rfl, rfl, rfl, rfl, rfl, rfl, rfl⟩
    | Xyz m =>
      simp only [Card.infoOf, Option.some.injEq] at h
      subst h
      exact ⟨rfl, rfl, rfl, rfl, rfl, rfl, rfl, rfl, rfl⟩
    | Link m =>
      simp only [Card.infoOf, Option.some.injEq] at h
      subst h
      exact ⟨rfl, rfl, rfl, rfl, rfl, rfl, rfl, rfl, rfl⟩
    | Spell c =>
      simp only [Card.infoOf, Option.some.injEq] at h
      subst h
      exact ⟨rfl, rfl, rfl, rfl, rfl, rfl, rfl, rfl, rfl⟩
    | Trap c =>
      simp only [Card.infoOf, Option.some.injEq] at h
      subst h
      exact ⟨rfl, rfl, rfl, rfl, rfl, rfl, rfl, rfl, rfl⟩
    | Pendulum m =>
      simp only [Card.infoOf, Option.some.injEq] at h
      subst h
      exact ⟨rfl, rfl, rfl, rfl, rfl, rfl, rfl, rfl, rfl⟩

/-- Witness for `cardinfo_embedding_amended` at the concrete card `Trent`. -/
theorem cardinfo_embedding_amended_witness :
    (serializeCard (.Normal trentCard)).getField "name" =
      some (.str trentCard.info.name) ∧
    (serializeCard (.Normal trentCard)).getField "info" = none := by
  have h := cardinfo_embedding_amended.2 (.Normal trentCard) trentCard.info rfl
  exact ⟨h.2.1, h.2.2.2.2.2.2.2.2⟩

end Trent
